import Mathlib

/-!
# CloudQuotes backend (`src/backend/server.js`)

A shallow embedding of the Express handlers of the CloudQuotes API and of the
SQL statements they send to the PostgreSQL store, followed by the properties
proved about them.

* JavaScript values that reach the handlers are values of `JsVal`.
* The relational store is a pair of optional tables (`none` = the table has not
  been created yet); every SQL statement of the source is one Lean function on
  the store, following the column types declared in the `CREATE TABLE`
  statements of `setupDatabase`.
* Everything the handlers cannot control (connectivity and any other failure of
  the store that the schema does not determine, the clock, the random order
  used by `ORDER BY RANDOM()`) is an explicit `Env` argument.
-/

namespace CloudQuotes

/-! ## JavaScript values -/

/-- A value found in a parsed JSON request body, or `undefined` for a field that
is absent. `num` is an integral number (of magnitude below `10^21`, so that its
JavaScript text is its decimal form); `other` stands for every remaining parsed
value (an array, an object, a non-integral or very large number): all of these
are truthy, and `wire` is the text the database driver sends for it. -/
inductive JsVal where
  | undefined
  | null
  | bool (b : Bool)
  | num (n : Int)
  | str (s : String)
  | other (wire : String)
  deriving DecidableEq, Repr

/-- JavaScript truthiness (`!v` is `false` exactly when `truthy v`). -/
def JsVal.truthy : JsVal → Bool
  | .undefined => false
  | .null => false
  | .bool b => b
  | .num n => n ≠ 0
  | .str s => s ≠ ""
  | .other _ => true

/-- The JavaScript operator `a || b`. -/
def JsVal.orElse (a b : JsVal) : JsVal :=
  if a.truthy then a else b

/-- The text the driver sends for a query parameter: `null` and `undefined`
become SQL `NULL` (`none`), every other value is sent as its string form. -/
def JsVal.toParam : JsVal → Option String
  | .undefined => none
  | .null => none
  | .bool b => some (if b then "true" else "false")
  | .num n => some (toString n)
  | .str s => some s
  | .other w => some w

/-- The request body `req.body` as `bodyParser.json()` leaves it: a parsed JSON
object, as the list of its keys and values. -/
abbrev ReqBody := List (String × JsVal)

/-- Property read `body.key`, `undefined` when the key is absent. -/
def ReqBody.field (body : ReqBody) (key : String) : JsVal :=
  (body.lookup key).getD JsVal.undefined

/-! ### `parseInt` -/

/-- White space skipped by `parseInt` (ECMAScript `WhiteSpace` and
`LineTerminator`). -/
def jsIsSpace (c : Char) : Bool :=
  c.toNat ∈ [9, 10, 11, 12, 13, 32, 160, 0x1680, 0x2000, 0x2001, 0x2002, 0x2003, 0x2004,
    0x2005, 0x2006, 0x2007, 0x2008, 0x2009, 0x200A, 0x2028, 0x2029, 0x202F, 0x205F,
    0x3000, 0xFEFF]

/-- Value of a list of decimal digits, most significant first. -/
def decimalValue (ds : List Char) : Nat :=
  ds.foldl (fun acc c => 10 * acc + (c.toNat - 48)) 0

/-- Hexadecimal digit test. -/
def isHexDigit (c : Char) : Bool :=
  c.isDigit || (97 ≤ c.toNat && c.toNat ≤ 102) || (65 ≤ c.toNat && c.toNat ≤ 70)

/-- Value of one hexadecimal digit. -/
def hexDigitValue (c : Char) : Nat :=
  if c.isDigit then c.toNat - 48
  else if 97 ≤ c.toNat then c.toNat - 87
  else c.toNat - 55

/-- Value of a list of hexadecimal digits, most significant first. -/
def hexValue (ds : List Char) : Nat :=
  ds.foldl (fun acc c => 16 * acc + hexDigitValue c) 0

/-- The unsigned part of `parseInt`: a `0x`/`0X` start selects radix 16,
otherwise radix 10; the longest run of digits is read and the rest ignored;
`none` is `NaN` (no digit). -/
def parseMagnitude (cs : List Char) : Option Nat :=
  if cs.take 2 = ['0', 'x'] ∨ cs.take 2 = ['0', 'X'] then
    let ds := (cs.drop 2).takeWhile isHexDigit
    if ds = [] then none else some (hexValue ds)
  else
    let ds := cs.takeWhile Char.isDigit
    if ds = [] then none else some (decimalValue ds)

/-- Sign handling of `parseInt`, after leading white space was removed. -/
def parseIntChars : List Char → Option Int
  | [] => none
  | c :: r =>
    if c = '-' then (parseMagnitude r).map (fun v => -(v : Int))
    else if c = '+' then (parseMagnitude r).map (fun v => (v : Int))
    else (parseMagnitude (c :: r)).map (fun v => (v : Int))

/-- JavaScript `parseInt(s)` with no radix argument; `none` is `NaN`. -/
def parseInt (s : String) : Option Int :=
  parseIntChars (s.toList.dropWhile jsIsSpace)

/-! ## The store -/

/-- Errors with which the store rejects a statement. `external` is any failure
that the schema does not determine (lost connection, encoding, resources). -/
inductive DbError where
  | external (message : String)
  | undefinedTable (table : String)
  | invalidTextRepresentation (value : String)
  | numericValueOutOfRange (value : String)
  | stringDataRightTruncation (limit : Nat)
  | notNullViolation (column : String)
  | uniqueViolation (id : Int)
  | foreignKeyViolation (quote_id : Int)
  deriving DecidableEq, Repr

/-- A row of `quotes`: `id SERIAL PRIMARY KEY, text TEXT NOT NULL,
author VARCHAR(100) NOT NULL, category VARCHAR(50), created_at TIMESTAMP`. -/
structure Quote where
  id : Int
  text : String
  author : String
  category : Option String
  created_at : Nat
  deriving DecidableEq, Repr

/-- A row of `favorites`: `id SERIAL PRIMARY KEY, quote_id INTEGER REFERENCES
quotes(id), user_name VARCHAR(100), created_at TIMESTAMP`. -/
structure Favorite where
  id : Int
  quote_id : Option Int
  user_name : Option String
  created_at : Nat
  deriving DecidableEq, Repr

/-- A table with a `SERIAL` key: its rows and the next value of its sequence. -/
structure Table (α : Type) where
  rows : List α
  seq : Int
  deriving DecidableEq, Repr

/-- The database: each table is absent until `CREATE TABLE` has run. -/
structure Store where
  quotes : Option (Table Quote)
  favorites : Option (Table Favorite)
  deriving DecidableEq, Repr

/-- Rows of `quotes` (none while the table is absent). -/
def Store.quoteRows (s : Store) : List Quote :=
  match s.quotes with
  | none => []
  | some t => t.rows

/-- Rows of `favorites` (none while the table is absent). -/
def Store.favoriteRows (s : Store) : List Favorite :=
  match s.favorites with
  | none => []
  | some t => t.rows

/-- What the handlers do not control. `fail k` is the failure, if any, that
strikes the `k`-th statement issued while serving one request for a reason
outside the schema; `now` is `CURRENT_TIMESTAMP`; `rand` fixes the order chosen
by `ORDER BY RANDOM()`; `isoNow` is `new Date().toISOString()`. -/
structure Env where
  fail : Nat → Option DbError
  now : Nat
  rand : Nat
  isoNow : String

/-! ### Column input conversions -/

/-- White space accepted around an `INTEGER` literal. -/
def pgIsSpace (c : Char) : Bool :=
  c.toNat ∈ [9, 10, 11, 12, 13, 32]

/-- Input conversion of a text parameter to `INTEGER`, the type of
`favorites.quote_id`: optional white space, an optional sign, decimal digits,
optional white space; anything else is an error (`invalid input syntax for type
integer`), and so is a value that does not fit in 32 bits. -/
def int4in (s : String) : Except DbError Int :=
  let cs := s.toList.dropWhile pgIsSpace
  let neg := cs.head? = some '-'
  let body := if cs.head? = some '-' ∨ cs.head? = some '+' then cs.drop 1 else cs
  let ds := body.takeWhile Char.isDigit
  let rest := (body.dropWhile Char.isDigit).dropWhile pgIsSpace
  if ds = [] ∨ rest ≠ [] then .error (.invalidTextRepresentation s)
  else
    let n : Int := if neg then -(decimalValue ds : Int) else (decimalValue ds : Int)
    if -2147483648 ≤ n ∧ n ≤ 2147483647 then .ok n
    else .error (.numericValueOutOfRange s)

/-- Input conversion to `VARCHAR(limit)`, the type of `author` (100),
`category` (50) and `user_name` (100): a string of at most `limit` characters
is stored as it is; storing a longer one is an error (`value too long for type
character varying`) unless the excess characters are all spaces, in which case
the string is cut to its first `limit` characters. -/
def varcharIn (limit : Nat) (s : String) : Except DbError String :=
  if s.length ≤ limit then .ok s
  else if (s.toList.drop limit).all (fun c => c = ' ') then .ok (String.mk (s.toList.take limit))
  else .error (.stringDataRightTruncation limit)

/-- Conversion of a nullable parameter to `VARCHAR(limit)`. -/
def varcharParam (limit : Nat) : Option String → Except DbError (Option String)
  | none => .ok none
  | some v => (varcharIn limit v).map some

/-- Conversion of a nullable parameter to `INTEGER`. -/
def int4Param : Option String → Except DbError (Option Int)
  | none => .ok none
  | some v => (int4in v).map some

/-- The outcome of `ORDER BY RANDOM() LIMIT 1` on the matching rows: no row
when none matches, otherwise the row the random order puts first. -/
def randomLimit1 {α : Type} (rand : Nat) : List α → List α
  | [] => []
  | a :: as => [(a :: as).getD (rand % (a :: as).length) a]

/-! ### The statements of `server.js` -/

/-- Statement `CREATE TABLE IF NOT EXISTS quotes (...)`. -/
def createQuotes (s : Store) : Except DbError Unit × Store :=
  match s.quotes with
  | some _ => (.ok (), s)
  | none => (.ok (), { s with quotes := some ⟨[], 1⟩ })

/-- Statement `CREATE TABLE IF NOT EXISTS favorites (... REFERENCES quotes(id) ...)`. -/
def createFavorites (s : Store) : Except DbError Unit × Store :=
  match s.favorites with
  | some _ => (.ok (), s)
  | none =>
    match s.quotes with
    | none => (.error (.undefinedTable "quotes"), s)
    | some _ => (.ok (), { s with favorites := some ⟨[], 1⟩ })

/-- Statement `SELECT COUNT(*) FROM quotes`; the driver delivers the `bigint`
count as its decimal text. -/
def countQuotes (s : Store) : Except DbError String × Store :=
  match s.quotes with
  | none => (.error (.undefinedTable "quotes"), s)
  | some t => (.ok (Nat.repr t.rows.length), s)

/-- The fifteen rows of the seeding `INSERT`: text, author, category. -/
def seedQuotes : List (String × String × String) :=
  [ ("The cloud is about how you do computing, not where you do computing.", "Paul Maritz", "cloud"),
    ("There is no cloud, it's just someone else's computer.", "Anonymous", "cloud"),
    ("Code is like humor. When you have to explain it, it's bad.", "Cory House", "programming"),
    ("First, solve the problem. Then, write the code.", "John Johnson", "programming"),
    ("Any fool can write code that a computer can understand. Good programmers write code that humans can understand.", "Martin Fowler", "programming"),
    ("The best thing about a boolean is even if you are wrong, you are only off by a bit.", "Anonymous", "programming"),
    ("Infrastructure as Code is not about automation, it's about documentation.", "Yevgeniy Brikman", "devops"),
    ("In the cloud, you don't buy servers, you buy compute time.", "Werner Vogels", "cloud"),
    ("Simplicity is the soul of efficiency.", "Austin Freeman", "programming"),
    ("Make it work, make it right, make it fast.", "Kent Beck", "programming"),
    ("Cloud computing is a great equalizer.", "Vivek Kundra", "cloud"),
    ("The only way to go fast is to go well.", "Robert C. Martin", "programming"),
    ("Docker is not about containers, it's about packaging and shipping.", "Solomon Hykes", "devops"),
    ("Automation is good, so long as you know exactly where to put the machine off switch.", "Terry Pratchett", "devops"),
    ("The cloud is for everyone. The cloud is a democracy.", "Marc Benioff", "cloud") ]

/-- Rows built from value triples, with consecutive keys from `first` and one
common timestamp. -/
def mkQuoteRows (now : Nat) : Int → List (String × String × String) → List Quote
  | _, [] => []
  | first, (t, a, c) :: rest =>
    ⟨first, t, a, some c, now⟩ :: mkQuoteRows now (first + 1) rest

/-- Statement `INSERT INTO quotes (text, author, category) VALUES` followed by
the fifteen seed rows. Sequence values drawn by a failed statement stay drawn. -/
def insertSeedQuotes (now : Nat) (s : Store) : Except DbError Unit × Store :=
  match s.quotes with
  | none => (.error (.undefinedTable "quotes"), s)
  | some t =>
    let rows := mkQuoteRows now t.seq seedQuotes
    let seq := t.seq + seedQuotes.length
    match rows.find? (fun r => t.rows.any (fun q => q.id = r.id)) with
    | some r => (.error (.uniqueViolation r.id), { s with quotes := some ⟨t.rows, seq⟩ })
    | none => (.ok (), { s with quotes := some ⟨t.rows ++ rows, seq⟩ })

/-- Statement `SELECT * FROM quotes ORDER BY RANDOM() LIMIT 1`. -/
def selectRandomQuote (rand : Nat) (s : Store) : Except DbError (List Quote) × Store :=
  match s.quotes with
  | none => (.error (.undefinedTable "quotes"), s)
  | some t => (.ok (randomLimit1 rand t.rows), s)

/-- Statement `SELECT * FROM quotes ORDER BY id`. -/
def selectAllQuotes (s : Store) : Except DbError (List Quote) × Store :=
  match s.quotes with
  | none => (.error (.undefinedTable "quotes"), s)
  | some t => (.ok (t.rows.insertionSort (fun a b => a.id ≤ b.id)), s)

/-- Statement `SELECT * FROM quotes WHERE category = $1 ORDER BY RANDOM() LIMIT 1`:
the comparison is exact text equality and a `NULL` category matches nothing. -/
def selectQuoteByCategory (rand : Nat) (category : String) (s : Store) :
    Except DbError (List Quote) × Store :=
  match s.quotes with
  | none => (.error (.undefinedTable "quotes"), s)
  | some t => (.ok (randomLimit1 rand (t.rows.filter (fun q => q.category = some category))), s)

/-- Statement `INSERT INTO quotes (text, author, category) VALUES ($1, $2, $3)
RETURNING *`. The parameters are converted to the column types first; then a
key is drawn from the sequence (and stays drawn if the row is rejected). -/
def insertQuote (now : Nat) (text author category : JsVal) (s : Store) :
    Except DbError Quote × Store :=
  match s.quotes with
  | none => (.error (.undefinedTable "quotes"), s)
  | some t =>
    match varcharParam 100 author.toParam, varcharParam 50 category.toParam with
    | .error e, _ => (.error e, s)
    | .ok _, .error e => (.error e, s)
    | .ok a, .ok c =>
      let drawn : Store := { s with quotes := some ⟨t.rows, t.seq + 1⟩ }
      match text.toParam, a with
      | none, _ => (.error (.notNullViolation "text"), drawn)
      | some _, none => (.error (.notNullViolation "author"), drawn)
      | some tx, some au =>
        if t.rows.any (fun q => q.id = t.seq) then (.error (.uniqueViolation t.seq), drawn)
        else
          let row : Quote := ⟨t.seq, tx, au, c, now⟩
          (.ok row, { s with quotes := some ⟨t.rows ++ [row], t.seq + 1⟩ })

/-- Statement `INSERT INTO favorites (quote_id, user_name) VALUES ($1, $2)
RETURNING *`, with the foreign key on `quotes(id)`. -/
def insertFavorite (now : Nat) (quote_id user_name : JsVal) (s : Store) :
    Except DbError Favorite × Store :=
  match s.favorites with
  | none => (.error (.undefinedTable "favorites"), s)
  | some t =>
    match int4Param quote_id.toParam, varcharParam 100 user_name.toParam with
    | .error e, _ => (.error e, s)
    | .ok _, .error e => (.error e, s)
    | .ok q, .ok u =>
      let drawn : Store := { s with favorites := some ⟨t.rows, t.seq + 1⟩ }
      if t.rows.any (fun f => f.id = t.seq) then (.error (.uniqueViolation t.seq), drawn)
      else
        match q with
        | some n =>
          if s.quoteRows.any (fun r => r.id = n) then
            let row : Favorite := ⟨t.seq, some n, u, now⟩
            (.ok row, { s with favorites := some ⟨t.rows ++ [row], t.seq + 1⟩ })
          else (.error (.foreignKeyViolation n), drawn)
        | none =>
          let row : Favorite := ⟨t.seq, none, u, now⟩
          (.ok row, { s with favorites := some ⟨t.rows ++ [row], t.seq + 1⟩ })

/-- Statement `SELECT COUNT(*) FROM favorites WHERE quote_id = $1`: the
parameter is read as an `INTEGER`, the type of the column. -/
def countFavoritesOf (quoteId : String) (s : Store) : Except DbError String × Store :=
  match s.favorites with
  | none => (.error (.undefinedTable "favorites"), s)
  | some t =>
    match int4in quoteId with
    | .error e => (.error e, s)
    | .ok n => (.ok (Nat.repr (t.rows.countP (fun f => f.quote_id = some n))), s)

/-- Statement `SELECT COUNT(*) FROM favorites`. -/
def countFavorites (s : Store) : Except DbError String × Store :=
  match s.favorites with
  | none => (.error (.undefinedTable "favorites"), s)
  | some t => (.ok (Nat.repr t.rows.length), s)

/-- Statement `SELECT DISTINCT category FROM quotes` (one row per distinct
value, `NULL` included). -/
def selectDistinctCategories (s : Store) : Except DbError (List (Option String)) × Store :=
  match s.quotes with
  | none => (.error (.undefinedTable "quotes"), s)
  | some t => (.ok (t.rows.map (fun q => q.category)).dedup, s)

/-! ## `pool.query` and the handlers -/

/-- The SQL statements that occur in `server.js`. -/
inductive Sql where
  | createQuotes
  | createFavorites
  | countQuotes
  | insertSeedQuotes
  | selectRandomQuote
  | selectAllQuotes
  | selectQuoteByCategory
  | insertQuote
  | insertFavorite
  | countFavoritesOf
  | countFavorites
  | selectDistinctCategories
  deriving DecidableEq, Repr

/-- One call of `pool.query`: the statement and, if it was rejected, the error. -/
structure Issued where
  sql : Sql
  error : Option DbError
  deriving DecidableEq, Repr

/-- The call `await pool.query(...)`, the `k`-th issued for the current request: it fails
with the external failure `env.fail k` if there is one (the store is then not
touched), and otherwise runs the statement on the store. -/
def poolQuery {α : Type} (env : Env) (k : Nat) (sql : Sql)
    (run : Store → Except DbError α × Store) (s : Store) :
    Except DbError α × Store × Issued :=
  match env.fail k with
  | some e => (.error e, s, ⟨sql, some e⟩)
  | none =>
    match run s with
    | (.ok a, s1) => (.ok a, s1, ⟨sql, none⟩)
    | (.error e, s1) => (.error e, s1, ⟨sql, some e⟩)

/-- JSON bodies sent by the handlers, one constructor per shape, with the keys
of the source as argument names. A `NaN` number (`none`) is sent as `null`. -/
inductive ResBody where
  | error (error : String)
  | health (status message timestamp : String)
  | quote (row : Quote)
  | quotes (rows : List Quote)
  | created (message : String) (quote : Quote)
  | favorited (message : String) (favorite : Favorite)
  | count (count : Option Int)
  | stats (total_quotes total_favorites : Option Int) (categories : List (Option String))
  deriving DecidableEq, Repr

/-- The rows of a body that is a JSON array of quotes (none for another body). -/
def ResBody.listed : ResBody → List Quote
  | .quotes rows => rows
  | _ => []

/-- An HTTP response: `res.status(status).json(body)`. -/
structure Response where
  status : Nat
  body : ResBody
  deriving DecidableEq, Repr

/-- The result of serving one request: the response, the store afterwards and
the statements issued, in order. -/
structure Outcome where
  response : Response
  store : Store
  issued : List Issued
  deriving DecidableEq, Repr

/-- Function `setupDatabase`: both `CREATE TABLE IF NOT EXISTS`, then the count and,
when the count is the text `'0'`, the seeding insert; any error ends it (the
`catch` only logs). -/
def setupDatabase (env : Env) (s : Store) : Store × List Issued :=
  match poolQuery env 0 .createQuotes createQuotes s with
  | (.error _, s1, i1) => (s1, [i1])
  | (.ok _, s1, i1) =>
    match poolQuery env 1 .createFavorites createFavorites s1 with
    | (.error _, s2, i2) => (s2, [i1, i2])
    | (.ok _, s2, i2) =>
      match poolQuery env 2 .countQuotes countQuotes s2 with
      | (.error _, s3, i3) => (s3, [i1, i2, i3])
      | (.ok count, s3, i3) =>
        if count = "0" then
          match poolQuery env 3 .insertSeedQuotes (insertSeedQuotes env.now) s3 with
          | (_, s4, i4) => (s4, [i1, i2, i3, i4])
        else (s3, [i1, i2, i3])

/-- Handler of `GET /api/health`. -/
def getHealth (env : Env) (s : Store) : Outcome :=
  ⟨⟨200, .health "healthy" "CloudQuotes API is running!" env.isoNow⟩, s, []⟩

/-- Handler of `GET /api/quotes/random`. -/
def getRandomQuote (env : Env) (s : Store) : Outcome :=
  match poolQuery env 0 .selectRandomQuote (selectRandomQuote env.rand) s with
  | (.ok [], s1, i) => ⟨⟨404, .error "No quotes found"⟩, s1, [i]⟩
  | (.ok (q :: _), s1, i) => ⟨⟨200, .quote q⟩, s1, [i]⟩
  | (.error _, s1, i) => ⟨⟨500, .error "Failed to fetch quote"⟩, s1, [i]⟩

/-- Handler of `GET /api/quotes`. -/
def getQuotes (env : Env) (s : Store) : Outcome :=
  match poolQuery env 0 .selectAllQuotes selectAllQuotes s with
  | (.ok rows, s1, i) => ⟨⟨200, .quotes rows⟩, s1, [i]⟩
  | (.error _, s1, i) => ⟨⟨500, .error "Failed to fetch quotes"⟩, s1, [i]⟩

/-- Handler of `GET /api/quotes/category/:category`. -/
def getQuoteByCategory (env : Env) (s : Store) (category : String) : Outcome :=
  match poolQuery env 0 .selectQuoteByCategory (selectQuoteByCategory env.rand category) s with
  | (.ok [], s1, i) => ⟨⟨404, .error "No quotes found in this category"⟩, s1, [i]⟩
  | (.ok (q :: _), s1, i) => ⟨⟨200, .quote q⟩, s1, [i]⟩
  | (.error _, s1, i) => ⟨⟨500, .error "Failed to fetch quote"⟩, s1, [i]⟩

/-- Handler of `POST /api/quotes`. -/
def postQuote (env : Env) (s : Store) (body : ReqBody) : Outcome :=
  let text := body.field "text"
  let author := body.field "author"
  let category := body.field "category"
  if !text.truthy || !author.truthy then
    ⟨⟨400, .error "Quote text and author are required"⟩, s, []⟩
  else
    match poolQuery env 0 .insertQuote
        (insertQuote env.now text author (category.orElse (.str "general"))) s with
    | (.ok row, s1, i) => ⟨⟨201, .created "Quote added successfully!" row⟩, s1, [i]⟩
    | (.error _, s1, i) => ⟨⟨500, .error "Failed to add quote"⟩, s1, [i]⟩

/-- Handler of `POST /api/favorites`. -/
def postFavorite (env : Env) (s : Store) (body : ReqBody) : Outcome :=
  let quote_id := body.field "quote_id"
  let user_name := body.field "user_name"
  if !quote_id.truthy || !user_name.truthy then
    ⟨⟨400, .error "Quote ID and user name are required"⟩, s, []⟩
  else
    match poolQuery env 0 .insertFavorite (insertFavorite env.now quote_id user_name) s with
    | (.ok row, s1, i) => ⟨⟨201, .favorited "Quote favorited!" row⟩, s1, [i]⟩
    | (.error _, s1, i) => ⟨⟨500, .error "Failed to favorite quote"⟩, s1, [i]⟩

/-- Handler of `GET /api/favorites/count/:quoteId`. -/
def getFavoriteCount (env : Env) (s : Store) (quoteId : String) : Outcome :=
  match poolQuery env 0 .countFavoritesOf (countFavoritesOf quoteId) s with
  | (.ok count, s1, i) => ⟨⟨200, .count (parseInt count)⟩, s1, [i]⟩
  | (.error _, s1, i) => ⟨⟨500, .error "Failed to fetch favorite count"⟩, s1, [i]⟩

/-- Handler of `GET /api/stats`: three statements one after the other, the first
failure ends the handler. -/
def getStats (env : Env) (s : Store) : Outcome :=
  match poolQuery env 0 .countQuotes countQuotes s with
  | (.error _, s1, i1) => ⟨⟨500, .error "Failed to fetch statistics"⟩, s1, [i1]⟩
  | (.ok quotesCount, s1, i1) =>
    match poolQuery env 1 .countFavorites countFavorites s1 with
    | (.error _, s2, i2) => ⟨⟨500, .error "Failed to fetch statistics"⟩, s2, [i1, i2]⟩
    | (.ok favoritesCount, s2, i2) =>
      match poolQuery env 2 .selectDistinctCategories selectDistinctCategories s2 with
      | (.error _, s3, i3) => ⟨⟨500, .error "Failed to fetch statistics"⟩, s3, [i1, i2, i3]⟩
      | (.ok categories, s3, i3) =>
        ⟨⟨200, .stats (parseInt quotesCount) (parseInt favoritesCount) categories⟩, s3,
          [i1, i2, i3]⟩

/-- The eight routes, with the path parameter or parsed body of the request. -/
inductive Request where
  | health
  | randomQuote
  | listQuotes
  | quoteByCategory (category : String)
  | submitQuote (body : ReqBody)
  | submitFavorite (body : ReqBody)
  | favoriteCount (quoteId : String)
  | stats
  deriving DecidableEq, Repr

/-- Routing: each request is served by the handler registered for its route. -/
def handle (env : Env) (s : Store) : Request → Outcome
  | .health => getHealth env s
  | .randomQuote => getRandomQuote env s
  | .listQuotes => getQuotes env s
  | .quoteByCategory c => getQuoteByCategory env s c
  | .submitQuote body => postQuote env s body
  | .submitFavorite body => postFavorite env s body
  | .favoriteCount q => getFavoriteCount env s q
  | .stats => getStats env s

/-- An environment in which no statement fails for an external reason. -/
def calm (now rand : Nat) : Env :=
  ⟨fun _ => none, now, rand, "2024-01-01T00:00:00.000Z"⟩

/-- The database before `setupDatabase` has ever run. -/
def emptyStore : Store := ⟨none, none⟩

/-- No statement in the log was rejected: the store did not fail. -/
def allAccepted (log : List Issued) : Prop :=
  ∀ i ∈ log, i.error = none

instance (log : List Issued) : Decidable (allAccepted log) := by
  unfold allAccepted
  infer_instance

/-- The number of `favorites` rows whose `quote_id` is `x`. -/
def Store.favoritesOf (s : Store) (x : Int) : Nat :=
  s.favoriteRows.countP (fun f => f.quote_id = some x)

/-- The request body names quote `x`: the text sent for its `quote_id` reads as
the `INTEGER` `x`. -/
def namesQuote (body : ReqBody) (x : Int) : Prop :=
  ∃ w, (body.field "quote_id").toParam = some w ∧ int4in w = .ok x

/-- Referential integrity of `favorites.quote_id REFERENCES quotes(id)`: every
non-`NULL` `quote_id` is the `id` of a stored quote. -/
def Store.referencesHold (s : Store) : Prop :=
  ∀ f ∈ s.favoriteRows, ∀ n, f.quote_id = some n → ∃ q ∈ s.quoteRows, q.id = n

/-- Some statement in the log was rejected: the store failed. -/
def someRejected (log : List Issued) : Prop :=
  ∃ i ∈ log, i.error ≠ none

instance (log : List Issued) : Decidable (someRejected log) := by
  unfold someRejected
  infer_instance

/-- The seed rows as they are stored: text, author and non-`NULL` category. -/
def seedValues : List (String × String × Option String) :=
  seedQuotes.map (fun x => (x.1, x.2.1, some x.2.2))

/-- The stored values of the `quotes` rows, without key and timestamp. -/
def Store.quoteValues (s : Store) : List (String × String × Option String) :=
  s.quoteRows.map (fun q => (q.text, q.author, q.category))

/-- One operation on the store: serving a request, or a run of `setupDatabase`. -/
inductive Op where
  | request (r : Request)
  | setup
  deriving DecidableEq, Repr

/-- The store after one operation performed in the given environment. -/
def step (env : Env) (s : Store) : Op → Store
  | .request r => (handle env s r).store
  | .setup => (setupDatabase env s).1

/-- The store after a sequence of operations, each in its own environment. -/
def runOps : List (Env × Op) → Store → Store
  | [], s => s
  | (env, op) :: rest, s => runOps rest (step env s op)

/-- An environment in which every statement fails with the given external
error. -/
def broken (e : DbError) : Env :=
  ⟨fun _ => some e, 0, 0, "2024-01-01T00:00:00.000Z"⟩

/-- Both tables created and empty, sequences at their first value. -/
def freshStore : Store := ⟨some ⟨[], 1⟩, some ⟨[], 1⟩⟩

/-- The database after one undisturbed run of `setupDatabase` at time `0`. -/
def seededStore : Store := (setupDatabase (calm 0 0) emptyStore).1

/-! ## Decimal text of a count -/

theorem digitChar_value (d : Nat) (h : d < 10) : (Nat.digitChar d).toNat - 48 = d := by
  interval_cases d <;> rfl

theorem digitChar_isDigit (d : Nat) (h : d < 10) : (Nat.digitChar d).isDigit = true := by
  interval_cases d <;> rfl

theorem foldl_toDigitsCore (fuel : Nat) : ∀ (n : Nat) (ds : List Char), n < fuel →
    (Nat.toDigitsCore 10 fuel n ds).foldl (fun acc c => 10 * acc + (c.toNat - 48)) 0
      = ds.foldl (fun acc c => 10 * acc + (c.toNat - 48)) n := by
  induction fuel with
  | zero => intro n ds h; omega
  | succ fuel ih =>
    intro n ds h
    have hd := digitChar_value (n % 10) (Nat.mod_lt _ (by decide))
    by_cases h0 : n / 10 = 0
    · simp only [Nat.toDigitsCore, h0, if_true, List.foldl_cons, hd]
      congr 1
      omega
    · simp only [Nat.toDigitsCore, h0, if_false]
      rw [ih (n / 10) _ (by omega)]
      simp only [List.foldl_cons, hd]
      congr 1
      omega

theorem isDigit_toDigitsCore (fuel : Nat) : ∀ (n : Nat) (ds : List Char),
    (∀ c ∈ ds, c.isDigit = true) → ∀ c ∈ Nat.toDigitsCore 10 fuel n ds, c.isDigit = true := by
  induction fuel with
  | zero => intro n ds h; simpa [Nat.toDigitsCore] using h
  | succ fuel ih =>
    intro n ds h
    have hd := digitChar_isDigit (n % 10) (Nat.mod_lt _ (by decide))
    have hcons : ∀ c ∈ Nat.digitChar (n % 10) :: ds, c.isDigit = true := by
      intro c hc
      rcases List.mem_cons.1 hc with rfl | hc
      · exact hd
      · exact h c hc
    by_cases h0 : n / 10 = 0
    · simpa only [Nat.toDigitsCore, h0, if_true] using hcons
    · simpa only [Nat.toDigitsCore, h0, if_false] using ih (n / 10) _ hcons

theorem toDigitsCore_ne_nil (fuel : Nat) : ∀ (n : Nat) (ds : List Char),
    ds ≠ [] → Nat.toDigitsCore 10 fuel n ds ≠ [] := by
  induction fuel with
  | zero => intro n ds h; simpa [Nat.toDigitsCore] using h
  | succ fuel ih =>
    intro n ds _
    by_cases h0 : n / 10 = 0
    · simp [Nat.toDigitsCore, h0]
    · simpa only [Nat.toDigitsCore, h0, if_false] using ih (n / 10) _ (List.cons_ne_nil _ _)

theorem toDigits_ne_nil (n : Nat) : Nat.toDigits 10 n ≠ [] := by
  unfold Nat.toDigits
  by_cases h0 : n / 10 = 0
  · simp [Nat.toDigitsCore, h0]
  · simpa only [Nat.toDigitsCore, h0, if_false] using
      toDigitsCore_ne_nil n (n / 10) _ (List.cons_ne_nil _ _)

theorem isDigit_bounds (c : Char) (h : c.isDigit = true) : 48 ≤ c.toNat ∧ c.toNat ≤ 57 := by
  simp only [Char.isDigit, Bool.and_eq_true, decide_eq_true_eq] at h
  exact ⟨h.1, h.2⟩

/-- Reading back the decimal text of a count with `parseInt` gives the count. -/
theorem parseInt_repr (n : Nat) : parseInt (Nat.repr n) = some (n : Int) := by
  have hne := toDigits_ne_nil n
  have hdig : ∀ c ∈ Nat.toDigits 10 n, c.isDigit = true :=
    isDigit_toDigitsCore _ _ _ (by simp)
  have hval : decimalValue (Nat.toDigits 10 n) = n := by
    unfold decimalValue Nat.toDigits
    rw [foldl_toDigitsCore _ _ _ (Nat.lt_succ_self n)]
    rfl
  unfold parseInt Nat.repr
  simp only [List.asString, String.toList]
  cases hl : Nat.toDigits 10 n with
  | nil => exact absurd hl hne
  | cons c r =>
    rw [hl] at hdig hval
    have hc := isDigit_bounds c (hdig c (List.mem_cons_self _ _))
    have hsp : jsIsSpace c = false := by
      simp only [jsIsSpace, List.mem_cons, List.mem_singleton, decide_eq_false_iff_not]
      simp
      omega
    have hminus : c ≠ '-' := by
      rintro rfl
      revert hc
      decide
    have hplus : c ≠ '+' := by
      rintro rfl
      revert hc
      decide
    have hx : ¬ (List.take 2 (c :: r) = ['0', 'x'] ∨ List.take 2 (c :: r) = ['0', 'X']) := by
      cases r with
      | nil => simp
      | cons c2 r2 =>
        have hc2 := isDigit_bounds c2 (hdig c2 (by simp))
        rintro (h | h)
        · simp at h
          obtain ⟨-, rfl⟩ := h
          revert hc2
          decide
        · simp at h
          obtain ⟨-, rfl⟩ := h
          revert hc2
          decide
    have htw : List.takeWhile Char.isDigit (c :: r) = c :: r :=
      List.takeWhile_eq_self_iff.2 hdig
    simp only [List.dropWhile, hsp, parseIntChars, hminus, hplus, if_false, parseMagnitude, hx,
      htw, hval]
    simp

/-- The count text is `'0'` exactly for an empty table. -/
theorem repr_eq_zero_iff (n : Nat) : Nat.repr n = "0" ↔ n = 0 := by
  constructor
  · intro h
    have h1 := parseInt_repr n
    rw [h] at h1
    have h2 : parseInt "0" = some (0 : Int) := by decide
    rw [h2] at h1
    exact_mod_cast (Option.some.inj h1).symm
  · rintro rfl
    decide

/-! ## `pool.query` -/

theorem poolQuery_of_fail {α : Type} (env : Env) (k : Nat) (sql : Sql)
    (run : Store → Except DbError α × Store) (s : Store) (e : DbError)
    (h : env.fail k = some e) :
    poolQuery env k sql run s = (.error e, s, ⟨sql, some e⟩) := by
  simp [poolQuery, h]

theorem poolQuery_of_ok {α : Type} (env : Env) (k : Nat) (sql : Sql)
    (run : Store → Except DbError α × Store) (s s1 : Store) (a : α)
    (h : env.fail k = none) (hr : run s = (.ok a, s1)) :
    poolQuery env k sql run s = (.ok a, s1, ⟨sql, none⟩) := by
  simp [poolQuery, h, hr]

theorem poolQuery_of_error {α : Type} (env : Env) (k : Nat) (sql : Sql)
    (run : Store → Except DbError α × Store) (s s1 : Store) (e : DbError)
    (h : env.fail k = none) (hr : run s = (.error e, s1)) :
    poolQuery env k sql run s = (.error e, s1, ⟨sql, some e⟩) := by
  simp [poolQuery, h, hr]

/-- A call of `pool.query` returns a value exactly when its log entry carries no
error. -/
theorem poolQuery_cases {α : Type} (env : Env) (k : Nat) (sql : Sql)
    (run : Store → Except DbError α × Store) (s : Store) :
    (∃ a s1, env.fail k = none ∧ run s = (.ok a, s1) ∧
        poolQuery env k sql run s = (.ok a, s1, ⟨sql, none⟩)) ∨
    (∃ e s1, poolQuery env k sql run s = (.error e, s1, ⟨sql, some e⟩)) := by
  cases hf : env.fail k with
  | some e => exact Or.inr ⟨e, s, poolQuery_of_fail env k sql run s e hf⟩
  | none =>
    rcases hr : run s with ⟨r, s1⟩
    cases r with
    | ok a => exact Or.inl ⟨a, s1, rfl, rfl, poolQuery_of_ok env k sql run s s1 a hf hr⟩
    | error e => exact Or.inr ⟨e, s1, poolQuery_of_error env k sql run s s1 e hf hr⟩

theorem falsy_iff (v : JsVal) :
    v.truthy = false ↔
      v = .undefined ∨ v = .null ∨ v = .str "" ∨ v = .num 0 ∨ v = .bool false := by
  cases v <;> simp [JsVal.truthy]

/-! ## `POST /api/quotes` -/

theorem postQuote_of_falsy (env : Env) (s : Store) (body : ReqBody)
    (h : (body.field "text").truthy = false ∨ (body.field "author").truthy = false) :
    postQuote env s body = ⟨⟨400, .error "Quote text and author are required"⟩, s, []⟩ := by
  unfold postQuote
  rcases h with h | h <;> simp [h]

theorem postQuote_of_truthy (env : Env) (s : Store) (body : ReqBody)
    (ht : (body.field "text").truthy = true) (ha : (body.field "author").truthy = true) :
    postQuote env s body =
      match poolQuery env 0 .insertQuote
        (insertQuote env.now (body.field "text") (body.field "author")
          ((body.field "category").orElse (.str "general"))) s with
      | (.ok row, s1, i) => ⟨⟨201, .created "Quote added successfully!" row⟩, s1, [i]⟩
      | (.error _, s1, i) => ⟨⟨500, .error "Failed to add quote"⟩, s1, [i]⟩ := by
  unfold postQuote
  simp [ht, ha]

/-- C1: `POST /api/quotes` answers 400 with the fixed error body exactly when
`text` or `author` is falsy (absent, `null`, empty string, `0` or `false`); a
400 answer issues no statement and leaves the store as it was. -/
theorem postQuote_bad_request (env : Env) (s : Store) (body : ReqBody) :
    ((postQuote env s body).response = ⟨400, .error "Quote text and author are required"⟩ ↔
      ((body.field "text").truthy = false ∨ (body.field "author").truthy = false)) ∧
    ((postQuote env s body).response.status = 400 ↔
      ((body.field "text").truthy = false ∨ (body.field "author").truthy = false)) ∧
    ((postQuote env s body).response.status = 400 →
      (postQuote env s body).issued = [] ∧ (postQuote env s body).store = s ∧
      (postQuote env s body).store.quoteRows.length = s.quoteRows.length) ∧
    (∀ v : JsVal, v.truthy = false ↔
      v = .undefined ∨ v = .null ∨ v = .str "" ∨ v = .num 0 ∨ v = .bool false) := by
  have key : (postQuote env s body).response.status = 400 →
      ((body.field "text").truthy = false ∨ (body.field "author").truthy = false) := by
    intro h
    by_contra hn
    simp only [not_or, Bool.not_eq_false] at hn
    rw [postQuote_of_truthy env s body hn.1 hn.2] at h
    rcases poolQuery_cases env 0 .insertQuote
      (insertQuote env.now (body.field "text") (body.field "author")
        ((body.field "category").orElse (.str "general"))) s with
      ⟨a, s1, -, -, hq⟩ | ⟨e, s1, hq⟩ <;> rw [hq] at h <;> simp at h
  refine ⟨⟨fun h => key (by rw [h]), fun h => by rw [postQuote_of_falsy env s body h]⟩,
    ⟨key, fun h => by rw [postQuote_of_falsy env s body h]⟩, ?_, falsy_iff⟩
  intro h
  rw [postQuote_of_falsy env s body (key h)]
  exact ⟨rfl, rfl, rfl⟩

/-- C1 on the seeded store: a body without `author` is answered 400 and nothing
is issued. -/
theorem postQuote_bad_request_witness :
    (postQuote (calm 0 0) seededStore [("text", .str "Test")]).response
      = ⟨400, .error "Quote text and author are required"⟩ ∧
    (postQuote (calm 0 0) seededStore [("text", .str "Test")]).issued = [] ∧
    (postQuote (calm 0 0) seededStore [("text", .str "Test")]).store = seededStore :=
  ⟨(postQuote_bad_request (calm 0 0) seededStore [("text", .str "Test")]).1.2
      (Or.inr (by decide)),
    ((postQuote_bad_request (calm 0 0) seededStore [("text", .str "Test")]).2.2.1
      (by decide)).1,
    ((postQuote_bad_request (calm 0 0) seededStore [("text", .str "Test")]).2.2.1
      (by decide)).2.1⟩

theorem insertQuote_ok (now : Nat) (text author category : JsVal) (s s1 : Store) (row : Quote)
    (h : insertQuote now text author category s = (.ok row, s1)) :
    ∃ t a c, s.quotes = some t ∧
      varcharParam 100 author.toParam = .ok (some a) ∧
      varcharParam 50 category.toParam = .ok c ∧
      text.toParam = some row.text ∧
      row = ⟨t.seq, row.text, a, c, now⟩ ∧
      s1 = { s with quotes := some ⟨t.rows ++ [row], t.seq + 1⟩ } := by
  unfold insertQuote at h
  split at h
  · simp at h
  · rename_i t ht
    split at h
    · simp at h
    · simp at h
    · rename_i a c ha hc
      simp only at h
      split at h
      · simp at h
      · simp at h
      · rename_i tx au
        split at h
        · simp at h
        · simp only [Prod.mk.injEq, Except.ok.injEq] at h
          obtain ⟨h1, h2⟩ := h
          subst h1
          refine ⟨t, _, _, ht, ?_, ?_, ?_, rfl, h2.symm⟩ <;> assumption

theorem varcharIn_ok (limit : Nat) (v r : String) (h : varcharIn limit v = .ok r) :
    (v.length ≤ limit → r = v) ∧ r.length ≤ limit := by
  unfold varcharIn at h
  split at h
  · simp only [Except.ok.injEq] at h
    subst h
    exact ⟨fun _ => rfl, by assumption⟩
  · split at h
    · simp only [Except.ok.injEq] at h
      subst h
      exact ⟨fun h1 => absurd h1 (by assumption), List.length_take_le _ _⟩
    · simp at h

theorem varcharParam_some (limit : Nat) (p : Option String) (r : String)
    (h : varcharParam limit p = .ok (some r)) :
    ∃ v, p = some v ∧ varcharIn limit v = .ok r := by
  cases p with
  | none => simp [varcharParam] at h
  | some v =>
    refine ⟨v, rfl, ?_⟩
    cases hv : varcharIn limit v with
    | error e => simp [varcharParam, hv, Except.map] at h
    | ok w =>
      simp only [varcharParam, hv, Except.map, Except.ok.injEq, Option.some.injEq] at h
      rw [h]

theorem varcharParam_of_some (limit : Nat) (v : String) (c : Option String)
    (h : varcharParam limit (some v) = .ok c) :
    ∃ r, c = some r ∧ varcharIn limit v = .ok r := by
  cases hv : varcharIn limit v with
  | error e => simp [varcharParam, hv, Except.map] at h
  | ok w =>
    simp only [varcharParam, hv, Except.map, Except.ok.injEq] at h
    exact ⟨w, h.symm, rfl⟩

theorem toParam_of_truthy (v : JsVal) (h : v.truthy = true) : ∃ w, v.toParam = some w := by
  cases v <;> simp [JsVal.truthy, JsVal.toParam] at h ⊢

theorem orElse_truthy (v : JsVal) : (v.orElse (.str "general")).truthy = true := by
  unfold JsVal.orElse
  split
  · assumption
  · decide

/-- C2 (as amended): a submission with truthy `text` and `author` that the store
accepts answers 201 with the created row and appends exactly that row to
`quotes`. The row holds the submitted `text` as the driver sends it, the
submitted `author` converted to `VARCHAR(100)` (unchanged when it has at most
100 characters) and, converted to `VARCHAR(50)`, the submitted `category` when
that is truthy and the literal `general` otherwise. -/
theorem postQuote_created (env : Env) (s : Store) (body : ReqBody)
    (ht : (body.field "text").truthy = true) (ha : (body.field "author").truthy = true)
    (hok : allAccepted (postQuote env s body).issued) :
    ∃ row au cat,
      (postQuote env s body).response = ⟨201, .created "Quote added successfully!" row⟩ ∧
      (postQuote env s body).store.quoteRows = s.quoteRows ++ [row] ∧
      (postQuote env s body).store.favorites = s.favorites ∧
      (body.field "text").toParam = some row.text ∧
      (∀ t, body.field "text" = .str t → row.text = t) ∧
      (body.field "author").toParam = some au ∧
      varcharIn 100 au = .ok row.author ∧
      (au.length ≤ 100 → row.author = au) ∧
      (if (body.field "category").truthy then body.field "category"
        else JsVal.str "general").toParam = some cat ∧
      (∃ c, varcharIn 50 cat = .ok c ∧ row.category = some c) ∧
      (cat.length ≤ 50 → row.category = some cat) ∧
      ((body.field "category").truthy = false → row.category = some "general") ∧
      row.created_at = env.now := by
  have hpost := postQuote_of_truthy env s body ht ha
  rcases poolQuery_cases env 0 .insertQuote
      (insertQuote env.now (body.field "text") (body.field "author")
        ((body.field "category").orElse (.str "general"))) s with
    ⟨row, s1, -, hrun, hq⟩ | ⟨e, s1, hq⟩
  · rw [hq] at hpost
    simp only at hpost
    obtain ⟨t, a, c, hst, hau, hcat, htx, hrow, hs1⟩ := insertQuote_ok _ _ _ _ _ _ _ hrun
    obtain ⟨au, hau1, hau2⟩ := varcharParam_some _ _ _ hau
    obtain ⟨w, hw⟩ := toParam_of_truthy _ (orElse_truthy (body.field "category"))
    rw [hw] at hcat
    obtain ⟨c1, hc1, hc2⟩ := varcharParam_of_some _ _ _ hcat
    have hrowA : row.author = a := by rw [hrow]
    have hrowC : row.category = c := by rw [hrow]
    have hrowT : row.created_at = env.now := by rw [hrow]
    have hw2 : (if (body.field "category").truthy then body.field "category"
        else JsVal.str "general").toParam = some w := by
      rw [← hw]
      rfl
    refine ⟨row, au, w, by rw [hpost], ?_, ?_, htx, ?_, hau1, by rw [hrowA]; exact hau2, ?_,
      hw2, ⟨c1, hc2, by rw [hrowC, hc1]⟩, ?_, ?_, hrowT⟩
    · rw [hpost, hs1]
      simp [Store.quoteRows, hst]
    · rw [hpost, hs1]
    · intro t0 h0
      rw [h0] at htx
      simpa [JsVal.toParam] using htx.symm
    · intro hlen
      rw [hrowA]
      exact (varcharIn_ok _ _ _ hau2).1 hlen
    · intro hlen
      rw [hrowC, hc1, (varcharIn_ok _ _ _ hc2).1 hlen]
    · intro hf
      rw [hf] at hw2
      simp only [Bool.false_eq_true, if_false, JsVal.toParam, Option.some.injEq] at hw2
      subst hw2
      have : c1 = "general" := by
        have h50 : varcharIn 50 "general" = .ok "general" := by rfl
        rw [h50] at hc2
        exact (Except.ok.inj hc2).symm
      rw [hrowC, hc1, this]
  · rw [hq] at hpost
    simp only at hpost
    rw [hpost] at hok
    have := hok ⟨.insertQuote, some e⟩ (by simp)
    simp at this

/-- C2, the example of the specification: `{text: "Test", author: "Bob"}` on the
seeded store gives 201 and a row of category `general`. -/
theorem postQuote_created_witness :
    ∃ row, (postQuote (calm 0 0) seededStore
        [("text", .str "Test"), ("author", .str "Bob")]).response
          = ⟨201, .created "Quote added successfully!" row⟩ ∧
      row.text = "Test" ∧ row.author = "Bob" ∧ row.category = some "general" := by
  obtain ⟨row, au, cat, h1, -, -, -, h5, h6, -, h8, -, -, -, h12, -⟩ :=
    postQuote_created (calm 0 0) seededStore [("text", .str "Test"), ("author", .str "Bob")]
      (by decide) (by decide) (by decide)
  have hau : au = "Bob" := by
    have : (ReqBody.field [("text", JsVal.str "Test"), ("author", JsVal.str "Bob")]
        "author").toParam = some "Bob" := by decide
    rw [this] at h6
    exact (Option.some.inj h6).symm
  exact ⟨row, h1, h5 "Test" (by decide), by rw [h8 (by rw [hau]; decide), hau],
    h12 (by decide)⟩

/-- C2 fails as stated: an accepted submission whose author is `Bob` followed by
98 spaces (101 characters) is answered 201 with a row whose author is `Bob`
followed by 97 spaces, not the submitted author. -/
theorem postQuote_author_not_verbatim :
    (ReqBody.field [("text", .str "Test"),
        ("author", .str (String.mk ('B' :: 'o' :: 'b' :: List.replicate 98 ' ')))]
        "author").truthy = true ∧
    allAccepted (postQuote (calm 0 0) freshStore [("text", .str "Test"),
        ("author", .str (String.mk ('B' :: 'o' :: 'b' :: List.replicate 98 ' ')))]).issued ∧
    (postQuote (calm 0 0) freshStore [("text", .str "Test"),
        ("author", .str (String.mk ('B' :: 'o' :: 'b' :: List.replicate 98 ' ')))]).response
      = ⟨201, .created "Quote added successfully!"
          ⟨1, "Test", String.mk ('B' :: 'o' :: 'b' :: List.replicate 97 ' '),
            some "general", 0⟩⟩ ∧
    String.mk ('B' :: 'o' :: 'b' :: List.replicate 97 ' ')
      ≠ String.mk ('B' :: 'o' :: 'b' :: List.replicate 98 ' ') := by
  decide

/-! ## `GET /api/quotes/category/:category` -/

theorem randomLimit1_nil_iff {α : Type} (rand : Nat) (l : List α) :
    randomLimit1 rand l = [] ↔ l = [] := by
  cases l <;> simp [randomLimit1]

theorem randomLimit1_cons {α : Type} (rand : Nat) (l : List α) (q : α) (rest : List α)
    (h : randomLimit1 rand l = q :: rest) : q ∈ l ∧ rest = [] := by
  cases l with
  | nil => simp [randomLimit1] at h
  | cons a as =>
    simp only [randomLimit1, List.cons.injEq] at h
    obtain ⟨h1, h2⟩ := h
    refine ⟨?_, h2.symm⟩
    rw [← h1]
    have hlt : rand % (a :: as).length < (a :: as).length :=
      Nat.mod_lt _ (by simp)
    rw [List.getD_eq_getElem _ _ hlt]
    exact List.getElem_mem _

theorem selectQuoteByCategory_ok (rand : Nat) (c : String) (s s1 : Store) (rows : List Quote)
    (h : selectQuoteByCategory rand c s = (.ok rows, s1)) :
    s1 = s ∧ rows = randomLimit1 rand (s.quoteRows.filter (fun q => q.category = some c)) := by
  unfold selectQuoteByCategory at h
  split at h
  · simp at h
  · rename_i t ht
    simp only [Prod.mk.injEq, Except.ok.injEq] at h
    simp [Store.quoteRows, ht, h.1.symm, h.2.symm]

/-- C3: when the store does not fail, `GET /api/quotes/category/:c` answers 200
with a stored row whose category is exactly `c` if there is one, whatever the
random choice, and answers 404 with the fixed body exactly when no stored row
has category `c`. -/
theorem getQuoteByCategory_exact (env : Env) (s : Store) (c : String)
    (hok : allAccepted (getQuoteByCategory env s c).issued) :
    ((∃ q ∈ s.quoteRows, q.category = some c) →
      ∃ q ∈ s.quoteRows, q.category = some c ∧
        (getQuoteByCategory env s c).response = ⟨200, .quote q⟩) ∧
    ((getQuoteByCategory env s c).response
        = ⟨404, .error "No quotes found in this category"⟩ ↔
      ∀ q ∈ s.quoteRows, q.category ≠ some c) ∧
    ((getQuoteByCategory env s c).response.status = 404 ↔
      ∀ q ∈ s.quoteRows, q.category ≠ some c) ∧
    (getQuoteByCategory env s c).store = s := by
  have hdef : getQuoteByCategory env s c =
      match poolQuery env 0 .selectQuoteByCategory (selectQuoteByCategory env.rand c) s with
      | (.ok [], s1, i) => ⟨⟨404, .error "No quotes found in this category"⟩, s1, [i]⟩
      | (.ok (q :: _), s1, i) => ⟨⟨200, .quote q⟩, s1, [i]⟩
      | (.error _, s1, i) => ⟨⟨500, .error "Failed to fetch quote"⟩, s1, [i]⟩ := rfl
  rcases poolQuery_cases env 0 .selectQuoteByCategory (selectQuoteByCategory env.rand c) s with
    ⟨rows, s1, -, hrun, hq⟩ | ⟨e, s1, hq⟩
  · rw [hq] at hdef
    obtain ⟨hs1, hrows⟩ := selectQuoteByCategory_ok _ _ _ _ _ hrun
    rw [hs1] at hdef
    cases hr : rows with
    | nil =>
      rw [hr] at hdef hrows
      simp only at hdef
      have hnone : ∀ q ∈ s.quoteRows, q.category ≠ some c := by
        have := (randomLimit1_nil_iff _ _).1 hrows.symm
        intro q hq1 hq2
        have hmem : q ∈ s.quoteRows.filter (fun q => q.category = some c) := by
          simp [List.mem_filter, hq1, hq2]
        rw [this] at hmem
        simp at hmem
      rw [hdef]
      refine ⟨?_, ⟨fun _ => hnone, fun _ => rfl⟩, ⟨fun _ => hnone, fun _ => rfl⟩, rfl⟩
      rintro ⟨q, hq1, hq2⟩
      exact absurd hq2 (hnone q hq1)
    | cons q rest =>
      rw [hr] at hdef hrows
      simp only at hdef
      obtain ⟨hmem, -⟩ := randomLimit1_cons _ _ _ _ hrows.symm
      simp only [List.mem_filter, decide_eq_true_eq] at hmem
      rw [hdef]
      refine ⟨fun _ => ⟨q, hmem.1, hmem.2, rfl⟩, ⟨fun h => ?_, fun h => ?_⟩,
        ⟨fun h => ?_, fun h => ?_⟩, rfl⟩
      · simp at h
      · exact absurd hmem.2 (h q hmem.1)
      · simp at h
      · exact absurd hmem.2 (h q hmem.1)
  · rw [hq] at hdef
    simp only at hdef
    rw [hdef] at hok
    have := hok ⟨.selectQuoteByCategory, some e⟩ (by simp)
    simp at this

/-- C3 on the seeded store: the request for `devops` is served without a store
failure and answers with a `devops` row; the theorem applies. -/
theorem getQuoteByCategory_exact_witness :
    allAccepted (getQuoteByCategory (calm 0 5) seededStore "devops").issued ∧
    (∃ q ∈ seededStore.quoteRows, q.category = some "devops" ∧
      (getQuoteByCategory (calm 0 5) seededStore "devops").response = ⟨200, .quote q⟩) ∧
    (getQuoteByCategory (calm 0 5) seededStore "Devops").response.status = 404 :=
  ⟨by decide,
    (getQuoteByCategory_exact (calm 0 5) seededStore "devops" (by decide)).1
      ⟨⟨7, "Infrastructure as Code is not about automation, it's about documentation.",
        "Yevgeniy Brikman", some "devops", 0⟩, by decide, rfl⟩,
    by decide⟩

/-! ## `POST /api/favorites` and `GET /api/favorites/count/:quoteId` -/

theorem insertFavorite_ok (now : Nat) (quote_id user_name : JsVal) (s s1 : Store)
    (row : Favorite) (h : insertFavorite now quote_id user_name s = (.ok row, s1)) :
    int4Param quote_id.toParam = .ok row.quote_id ∧
    (∀ n, row.quote_id = some n → ∃ q ∈ s.quoteRows, q.id = n) ∧
    s1.quotes = s.quotes ∧
    s1.favoriteRows = s.favoriteRows ++ [row] := by
  unfold insertFavorite at h
  split at h
  · simp at h
  · rename_i t ht
    split at h
    · simp at h
    · simp at h
    · rename_i q u hq hu
      simp only at h
      split at h
      · simp at h
      · split at h
        · rename_i n
          split at h
          · rename_i hfk
            simp only [Prod.mk.injEq, Except.ok.injEq] at h
            obtain ⟨h1, h2⟩ := h
            subst h1
            subst h2
            refine ⟨hq, ?_, rfl, by simp [Store.favoriteRows, ht]⟩
            intro m hm
            simp only [Option.some.injEq] at hm
            subst hm
            simpa using hfk
          · simp at h
        · simp only [Prod.mk.injEq, Except.ok.injEq] at h
          obtain ⟨h1, h2⟩ := h
          subst h1
          subst h2
          exact ⟨hq, by simp, rfl, by simp [Store.favoriteRows, ht]⟩

theorem insertFavorite_error (now : Nat) (quote_id user_name : JsVal) (s s1 : Store)
    (e : DbError) (h : insertFavorite now quote_id user_name s = (.error e, s1)) :
    s1.quotes = s.quotes ∧ s1.favoriteRows = s.favoriteRows := by
  unfold insertFavorite at h
  split at h
  · simp only [Prod.mk.injEq] at h
    rw [← h.2]
    exact ⟨rfl, rfl⟩
  · rename_i t ht
    split at h
    · simp only [Prod.mk.injEq] at h
      rw [← h.2]
      exact ⟨rfl, rfl⟩
    · simp only [Prod.mk.injEq] at h
      rw [← h.2]
      exact ⟨rfl, rfl⟩
    · simp only at h
      split at h
      · simp only [Prod.mk.injEq] at h
        rw [← h.2]
        exact ⟨rfl, by simp [Store.favoriteRows, ht]⟩
      · split at h
        · split at h
          · simp at h
          · simp only [Prod.mk.injEq] at h
            rw [← h.2]
            exact ⟨rfl, by simp [Store.favoriteRows, ht]⟩
        · simp at h

/-- The three ways `POST /api/favorites` can end. -/
theorem postFavorite_cases (env : Env) (s : Store) (body : ReqBody) :
    (((body.field "quote_id").truthy = false ∨ (body.field "user_name").truthy = false) ∧
      postFavorite env s body
        = ⟨⟨400, .error "Quote ID and user name are required"⟩, s, []⟩) ∨
    ((body.field "quote_id").truthy = true ∧ (body.field "user_name").truthy = true ∧
      ∃ row s1, insertFavorite env.now (body.field "quote_id") (body.field "user_name") s
          = (.ok row, s1) ∧
        postFavorite env s body
          = ⟨⟨201, .favorited "Quote favorited!" row⟩, s1, [⟨.insertFavorite, none⟩]⟩) ∨
    ((body.field "quote_id").truthy = true ∧ (body.field "user_name").truthy = true ∧
      ∃ e s1, s1.quotes = s.quotes ∧ s1.favoriteRows = s.favoriteRows ∧
        postFavorite env s body
          = ⟨⟨500, .error "Failed to favorite quote"⟩, s1, [⟨.insertFavorite, some e⟩]⟩) := by
  by_cases hq : (body.field "quote_id").truthy = true
  · by_cases hu : (body.field "user_name").truthy = true
    · have hdef : postFavorite env s body =
          match poolQuery env 0 .insertFavorite
            (insertFavorite env.now (body.field "quote_id") (body.field "user_name")) s with
          | (.ok row, s1, i) => ⟨⟨201, .favorited "Quote favorited!" row⟩, s1, [i]⟩
          | (.error _, s1, i) => ⟨⟨500, .error "Failed to favorite quote"⟩, s1, [i]⟩ := by
        unfold postFavorite
        simp [hq, hu]
      cases hf : env.fail 0 with
      | some e =>
        rw [poolQuery_of_fail _ _ _ _ _ e hf] at hdef
        exact Or.inr (Or.inr ⟨hq, hu, e, s, rfl, rfl, hdef⟩)
      | none =>
        rcases hr : insertFavorite env.now (body.field "quote_id") (body.field "user_name") s
          with ⟨r, s1⟩
        cases r with
        | ok row =>
          rw [poolQuery_of_ok _ _ _ _ _ _ _ hf hr] at hdef
          exact Or.inr (Or.inl ⟨hq, hu, row, s1, rfl, hdef⟩)
        | error e =>
          rw [poolQuery_of_error _ _ _ _ _ _ _ hf hr] at hdef
          obtain ⟨h1, h2⟩ := insertFavorite_error _ _ _ _ _ _ hr
          exact Or.inr (Or.inr ⟨hq, hu, e, s1, h1, h2, hdef⟩)
    · refine Or.inl ⟨Or.inr (by simpa using hu), ?_⟩
      unfold postFavorite
      simp [hu]
  · refine Or.inl ⟨Or.inl (by simpa using hq), ?_⟩
    unfold postFavorite
    simp [hq]

/-- C6: `POST /api/favorites` answers 400 with the fixed error body exactly when
`quote_id` or `user_name` is falsy; a 400 answer issues no statement and inserts
nothing; with both truthy and the insert accepted it answers 201 with the
inserted row. -/
theorem postFavorite_contract (env : Env) (s : Store) (body : ReqBody) :
    ((postFavorite env s body).response
        = ⟨400, .error "Quote ID and user name are required"⟩ ↔
      ((body.field "quote_id").truthy = false ∨ (body.field "user_name").truthy = false)) ∧
    ((postFavorite env s body).response.status = 400 ↔
      ((body.field "quote_id").truthy = false ∨ (body.field "user_name").truthy = false)) ∧
    ((postFavorite env s body).response.status = 400 →
      (postFavorite env s body).issued = [] ∧ (postFavorite env s body).store = s) ∧
    ((body.field "quote_id").truthy = true → (body.field "user_name").truthy = true →
      allAccepted (postFavorite env s body).issued →
      ∃ row, (postFavorite env s body).response = ⟨201, .favorited "Quote favorited!" row⟩ ∧
        (postFavorite env s body).store.favoriteRows = s.favoriteRows ++ [row] ∧
        (postFavorite env s body).store.quotes = s.quotes) ∧
    (∀ v : JsVal, v.truthy = false ↔
      v = .undefined ∨ v = .null ∨ v = .str "" ∨ v = .num 0 ∨ v = .bool false) := by
  rcases postFavorite_cases env s body with
    ⟨hf, hp⟩ | ⟨hq, hu, row, s1, hr, hp⟩ | ⟨hq, hu, e, s1, -, -, hp⟩
  · rw [hp]
    refine ⟨⟨fun _ => hf, fun _ => rfl⟩, ⟨fun _ => hf, fun _ => rfl⟩, fun _ => ⟨rfl, rfl⟩, ?_,
      falsy_iff⟩
    intro hq hu
    rcases hf with h | h
    · rw [h] at hq
      exact absurd hq (by decide)
    · rw [h] at hu
      exact absurd hu (by decide)
  · have hnf : ¬ ((body.field "quote_id").truthy = false ∨
        (body.field "user_name").truthy = false) := by simp [hq, hu]
    obtain ⟨-, -, h3, h4⟩ := insertFavorite_ok _ _ _ _ _ _ hr
    rw [hp]
    refine ⟨⟨fun h => ?_, fun h => absurd h hnf⟩, ⟨fun h => ?_, fun h => absurd h hnf⟩,
      fun h => ?_, fun _ _ _ => ⟨row, rfl, h4, h3⟩, falsy_iff⟩
    · simp at h
    · simp at h
    · simp at h
  · have hnf : ¬ ((body.field "quote_id").truthy = false ∨
        (body.field "user_name").truthy = false) := by simp [hq, hu]
    rw [hp]
    refine ⟨⟨fun h => ?_, fun h => absurd h hnf⟩, ⟨fun h => ?_, fun h => absurd h hnf⟩,
      fun h => ?_, fun _ _ hacc => ?_, falsy_iff⟩
    · simp at h
    · simp at h
    · simp at h
    · have := hacc ⟨.insertFavorite, some e⟩ (by simp)
      simp at this

/-- C6 on the seeded store: quote id `0` is answered 400, and a favorite of
quote 3 by Bob is answered 201 with the inserted row. -/
theorem postFavorite_contract_witness :
    (postFavorite (calm 0 0) seededStore
      [("quote_id", .num 0), ("user_name", .str "Bob")]).response
      = ⟨400, .error "Quote ID and user name are required"⟩ ∧
    ∃ row, (postFavorite (calm 5 0) seededStore
        [("quote_id", .num 3), ("user_name", .str "Bob")]).response
        = ⟨201, .favorited "Quote favorited!" row⟩ ∧
      (postFavorite (calm 5 0) seededStore
        [("quote_id", .num 3), ("user_name", .str "Bob")]).store.favoriteRows
        = seededStore.favoriteRows ++ [row] ∧
      (postFavorite (calm 5 0) seededStore
        [("quote_id", .num 3), ("user_name", .str "Bob")]).store.quotes = seededStore.quotes :=
  ⟨(postFavorite_contract (calm 0 0) seededStore
      [("quote_id", .num 0), ("user_name", .str "Bob")]).1.2 (Or.inl (by decide)),
    (postFavorite_contract (calm 5 0) seededStore
      [("quote_id", .num 3), ("user_name", .str "Bob")]).2.2.2.1
      (by decide) (by decide) (by decide)⟩

/-- The two ways `GET /api/favorites/count/:quoteId` can end. -/
theorem getFavoriteCount_cases (env : Env) (s : Store) (quoteId : String) :
    (∃ x, int4in quoteId = .ok x ∧
      getFavoriteCount env s quoteId
        = ⟨⟨200, .count (some (s.favoritesOf x : Int))⟩, s, [⟨.countFavoritesOf, none⟩]⟩) ∨
    (∃ e, getFavoriteCount env s quoteId
        = ⟨⟨500, .error "Failed to fetch favorite count"⟩, s, [⟨.countFavoritesOf, some e⟩]⟩) := by
  have hdef : getFavoriteCount env s quoteId =
      match poolQuery env 0 .countFavoritesOf (countFavoritesOf quoteId) s with
      | (.ok count, s1, i) => ⟨⟨200, .count (parseInt count)⟩, s1, [i]⟩
      | (.error _, s1, i) => ⟨⟨500, .error "Failed to fetch favorite count"⟩, s1, [i]⟩ := rfl
  cases hf : env.fail 0 with
  | some e =>
    rw [poolQuery_of_fail _ _ _ _ _ e hf] at hdef
    exact Or.inr ⟨e, hdef⟩
  | none =>
    cases ht : s.favorites with
    | none =>
      have hr : countFavoritesOf quoteId s = (.error (.undefinedTable "favorites"), s) := by
        simp [countFavoritesOf, ht]
      rw [poolQuery_of_error _ _ _ _ _ _ _ hf hr] at hdef
      exact Or.inr ⟨_, hdef⟩
    | some t =>
      cases hx : int4in quoteId with
      | error e =>
        have hr : countFavoritesOf quoteId s = (.error e, s) := by
          simp [countFavoritesOf, ht, hx]
        rw [poolQuery_of_error _ _ _ _ _ _ _ hf hr] at hdef
        exact Or.inr ⟨_, hdef⟩
      | ok x =>
        have hr : countFavoritesOf quoteId s = (.ok (Nat.repr (s.favoritesOf x)), s) := by
          simp [countFavoritesOf, ht, hx, Store.favoritesOf, Store.favoriteRows]
        rw [poolQuery_of_ok _ _ _ _ _ _ _ hf hr] at hdef
        simp only [parseInt_repr] at hdef
        exact Or.inl ⟨x, rfl, hdef⟩

theorem getFavoriteCount_of_accepted (env : Env) (s : Store) (quoteId : String) (x : Int)
    (hx : int4in quoteId = .ok x) (hok : allAccepted (getFavoriteCount env s quoteId).issued) :
    (getFavoriteCount env s quoteId).response = ⟨200, .count (some (s.favoritesOf x : Int))⟩ := by
  rcases getFavoriteCount_cases env s quoteId with ⟨y, hy, hp⟩ | ⟨e, hp⟩
  · rw [hx] at hy
    cases hy
    rw [hp]
  · rw [hp] at hok
    have := hok ⟨.countFavoritesOf, some e⟩ (by simp)
    simp at this

theorem postFavorite_201 (env : Env) (s : Store) (body : ReqBody) (x : Int)
    (hx : namesQuote body x) (h : (postFavorite env s body).response.status = 201) :
    (postFavorite env s body).store.favoritesOf x = s.favoritesOf x + 1 := by
  rcases postFavorite_cases env s body with
    ⟨-, hp⟩ | ⟨-, -, row, s1, hr, hp⟩ | ⟨-, -, e, s1, -, -, hp⟩
  · rw [hp] at h
    simp at h
  · obtain ⟨h1, -, -, h4⟩ := insertFavorite_ok _ _ _ _ _ _ hr
    obtain ⟨w, hw1, hw2⟩ := hx
    rw [hw1] at h1
    simp only [int4Param, hw2, Except.map, Except.ok.injEq] at h1
    rw [hp]
    simp only [Store.favoritesOf, h4, List.countP_append, List.countP_cons, List.countP_nil,
      ← h1]
    simp
  · rw [hp] at h
    simp at h

/-- C4: when the store does not fail, `GET /api/favorites/count/X` answers 200
with the number of `favorites` rows whose `quote_id` is `X`; every `POST
/api/favorites` naming `X` that is answered 201 raises that number by exactly
one, whatever the user name; so three of them from zero give `{count: 3}`. -/
theorem favoriteCount_counts :
    (∀ (env : Env) (s : Store) (quoteId : String) (x : Int),
      int4in quoteId = .ok x → allAccepted (getFavoriteCount env s quoteId).issued →
      (getFavoriteCount env s quoteId).response
        = ⟨200, .count (some (s.favoritesOf x : Int))⟩) ∧
    (∀ (env : Env) (s : Store) (body : ReqBody) (x : Int),
      namesQuote body x → (postFavorite env s body).response.status = 201 →
      (postFavorite env s body).store.favoritesOf x = s.favoritesOf x + 1) ∧
    (∀ (e1 e2 e3 e4 : Env) (s : Store) (b1 b2 b3 : ReqBody) (quoteId : String) (x : Int),
      s.favoritesOf x = 0 →
      namesQuote b1 x → namesQuote b2 x → namesQuote b3 x →
      (postFavorite e1 s b1).response.status = 201 →
      (postFavorite e2 (postFavorite e1 s b1).store b2).response.status = 201 →
      (postFavorite e3 (postFavorite e2 (postFavorite e1 s b1).store b2).store b3).response.status
        = 201 →
      int4in quoteId = .ok x →
      allAccepted (getFavoriteCount e4
        (postFavorite e3 (postFavorite e2 (postFavorite e1 s b1).store b2).store b3).store
        quoteId).issued →
      (getFavoriteCount e4
        (postFavorite e3 (postFavorite e2 (postFavorite e1 s b1).store b2).store b3).store
        quoteId).response = ⟨200, .count (some 3)⟩) := by
  refine ⟨getFavoriteCount_of_accepted, postFavorite_201, ?_⟩
  intro e1 e2 e3 e4 s b1 b2 b3 quoteId x h0 n1 n2 n3 p1 p2 p3 hx hok
  rw [getFavoriteCount_of_accepted _ _ _ x hx hok, postFavorite_201 _ _ _ x n3 p3,
    postFavorite_201 _ _ _ x n2 p2, postFavorite_201 _ _ _ x n1 p1, h0]
  rfl

/-- C4 on the seeded store: the same user favorites quote 3 three times (once
with the id as a number, twice as text) and the count request answers
`{count: 3}`. -/
theorem favoriteCount_counts_witness :
    (getFavoriteCount (calm 4 0)
      (postFavorite (calm 3 0)
        (postFavorite (calm 2 0)
          (postFavorite (calm 1 0) seededStore
            [("quote_id", .num 3), ("user_name", .str "Bob")]).store
          [("quote_id", .str "3"), ("user_name", .str "Bob")]).store
        [("quote_id", .str "3"), ("user_name", .str "Bob")]).store
      "3").response = ⟨200, .count (some 3)⟩ :=
  favoriteCount_counts.2.2 (calm 1 0) (calm 2 0) (calm 3 0) (calm 4 0) seededStore
    [("quote_id", .num 3), ("user_name", .str "Bob")]
    [("quote_id", .str "3"), ("user_name", .str "Bob")]
    [("quote_id", .str "3"), ("user_name", .str "Bob")] "3" 3
    (by decide) ⟨"3", by decide, by rfl⟩ ⟨"3", by decide, by rfl⟩ ⟨"3", by decide, by rfl⟩
    (by decide) (by decide) (by decide) (by rfl) (by decide)

/-- C5 (as amended): a `quoteId` that the store reads as an `INTEGER` naming no
stored quote is answered 200 with `{count: 0}` when the store does not fail and
its foreign key holds; a `quoteId` that is not an `INTEGER` literal (such as
`abc`) is rejected by the store and answered 500 with the fixed error body. -/
theorem getFavoriteCount_unknown (env : Env) (s : Store) (quoteId : String) :
    (∀ x, int4in quoteId = .ok x → allAccepted (getFavoriteCount env s quoteId).issued →
      s.referencesHold → (∀ q ∈ s.quoteRows, q.id ≠ x) →
      (getFavoriteCount env s quoteId).response = ⟨200, .count (some 0)⟩) ∧
    (∀ e, int4in quoteId = .error e →
      (getFavoriteCount env s quoteId).response
        = ⟨500, .error "Failed to fetch favorite count"⟩) := by
  constructor
  · intro x hx hok href hno
    rw [getFavoriteCount_of_accepted env s quoteId x hx hok]
    have h0 : s.favoritesOf x = 0 := by
      unfold Store.favoritesOf
      rw [List.countP_eq_zero]
      intro f hf hq
      simp only [decide_eq_true_eq] at hq
      obtain ⟨q, hq1, hq2⟩ := href f hf x hq
      exact hno q hq1 hq2
    rw [h0]
    rfl
  · intro e he
    rcases getFavoriteCount_cases env s quoteId with ⟨y, hy, -⟩ | ⟨e1, hp⟩
    · rw [he] at hy
      cases hy
    · rw [hp]

/-- C5 (as amended) on the seeded store: `999` names no quote and is answered
`{count: 0}`. -/
theorem getFavoriteCount_unknown_witness :
    (getFavoriteCount (calm 0 0) seededStore "999").response = ⟨200, .count (some 0)⟩ :=
  (getFavoriteCount_unknown (calm 0 0) seededStore "999").1 999 (by rfl) (by decide)
    (by
      intro f hf
      have hnone : seededStore.favoriteRows = [] := by decide
      rw [hnone] at hf
      exact absurd hf (List.not_mem_nil f))
    (by decide)

/-- C5 fails as stated: with both tables present and no failure outside the
schema, the non-numeric `quoteId` `abc` is answered 500, not `{count: 0}`. -/
theorem getFavoriteCount_nonnumeric :
    (calm 0 0).fail 0 = none ∧
    (getFavoriteCount (calm 0 0) seededStore "abc").response
      = ⟨500, .error "Failed to fetch favorite count"⟩ ∧
    (getFavoriteCount (calm 0 0) seededStore "abc").issued
      = [⟨.countFavoritesOf, some (.invalidTextRepresentation "abc")⟩] := by
  decide

/-! ## `GET /api/stats` -/

/-- The two ways `GET /api/stats` can end. -/
theorem getStats_cases (env : Env) (s : Store) :
    getStats env s
      = ⟨⟨200, .stats (some (s.quoteRows.length : Int)) (some (s.favoriteRows.length : Int))
            (s.quoteRows.map (fun q => q.category)).dedup⟩, s,
          [⟨.countQuotes, none⟩, ⟨.countFavorites, none⟩, ⟨.selectDistinctCategories, none⟩]⟩ ∨
    (∃ log, someRejected log ∧
      getStats env s = ⟨⟨500, .error "Failed to fetch statistics"⟩, s, log⟩) := by
  cases h0 : env.fail 0 <;> cases hq : s.quotes <;> cases h1 : env.fail 1 <;>
    cases hf : s.favorites <;> cases h2 : env.fail 2 <;>
    simp [getStats, poolQuery, countQuotes, countFavorites, selectDistinctCategories, h0, hq,
      h1, hf, h2, parseInt_repr, Store.quoteRows, Store.favoriteRows, someRejected]

theorem not_accepted_of_rejected (log : List Issued) (h : someRejected log) :
    ¬ allAccepted log := by
  obtain ⟨i, hi, he⟩ := h
  exact fun hall => he (hall i hi)

/-- C7: when its three reads succeed `GET /api/stats` answers 200 with the
number of quote rows, the number of favorite rows and a duplicate-free list of
exactly the category values that occur among the stored quotes; on a store
holding exactly the fifteen seed rows these are `cloud`, `programming` and
`devops`, and the total is 15. -/
theorem getStats_totals (env : Env) (s : Store) (hok : allAccepted (getStats env s).issued) :
    ∃ cats,
      (getStats env s).response
        = ⟨200, .stats (some (s.quoteRows.length : Int)) (some (s.favoriteRows.length : Int))
            cats⟩ ∧
      cats.Nodup ∧
      (∀ c, c ∈ cats ↔ ∃ q ∈ s.quoteRows, q.category = c) ∧
      (s.quoteValues = seedValues →
        s.quoteRows.length = 15 ∧
        ∀ c, c ∈ cats ↔ c = some "cloud" ∨ c = some "programming" ∨ c = some "devops") := by
  rcases getStats_cases env s with hp | ⟨log, hrej, hp⟩
  · refine ⟨_, by rw [hp], List.nodup_dedup _, ?_, ?_⟩
    · intro c
      simp [List.mem_dedup]
    · intro hseed
      have hlen : s.quoteRows.length = 15 := by
        have := congrArg List.length hseed
        simpa [Store.quoteValues, seedValues, seedQuotes] using this
      have hcat : s.quoteRows.map (fun q => q.category) = seedValues.map (fun x => x.2.2) := by
        rw [← hseed]
        simp [Store.quoteValues]
      refine ⟨hlen, ?_⟩
      intro c
      rw [List.mem_dedup, hcat]
      simp [seedValues, seedQuotes]
      tauto
  · rw [hp] at hok
    exact absurd hok (not_accepted_of_rejected _ hrej)

/-- C7 on the seeded store: the reads succeed, the total is 15 and the
categories are `cloud`, `programming` and `devops`. -/
theorem getStats_totals_witness :
    ∃ cats, (getStats (calm 0 0) seededStore).response = ⟨200, .stats (some 15) (some 0) cats⟩ ∧
      ∀ c, c ∈ cats ↔ c = some "cloud" ∨ c = some "programming" ∨ c = some "devops" := by
  obtain ⟨cats, h1, -, -, h4⟩ := getStats_totals (calm 0 0) seededStore (by decide)
  exact ⟨cats, h1, (h4 (by decide)).2⟩

/-! ## `setupDatabase` -/

theorem mkQuoteRows_values (now : Nat) (l : List (String × String × String)) :
    ∀ first : Int, (mkQuoteRows now first l).map (fun q => (q.text, q.author, q.category))
      = l.map (fun x => (x.1, x.2.1, some x.2.2)) := by
  induction l with
  | nil => intro first; rfl
  | cons x rest ih =>
    intro first
    obtain ⟨t, a, c⟩ := x
    simp [mkQuoteRows, ih]

/-- A run of `setupDatabase` on a store that already holds a quote changes
neither the `quotes` table nor the favorite rows, whatever the environment. -/
theorem setupDatabase_of_rows (env : Env) (s : Store) (h : s.quoteRows ≠ []) :
    (setupDatabase env s).1.quotes = s.quotes ∧
    (setupDatabase env s).1.favoriteRows = s.favoriteRows ∧
    (s.favorites ≠ none → (setupDatabase env s).1 = s) ∧
    (allAccepted (setupDatabase env s).2 → (setupDatabase env s).1.favorites ≠ none) := by
  cases hq : s.quotes with
  | none => simp [Store.quoteRows, hq] at h
  | some t =>
    have hrows : t.rows ≠ [] := by simpa [Store.quoteRows, hq] using h
    have hcount : ¬ Nat.repr t.rows.length = "0" := by
      rw [repr_eq_zero_iff]
      simpa using hrows
    cases h0 : env.fail 0 <;> cases h1 : env.fail 1 <;> cases hf : s.favorites <;>
      cases h2 : env.fail 2 <;>
      simp [setupDatabase, poolQuery, createQuotes, createFavorites, countQuotes, h0, hq, h1,
        hf, h2, hcount, Store.favoriteRows, allAccepted]

/-- A run of `setupDatabase` during which the store does not fail, on a store
without quotes. -/
theorem setupDatabase_of_empty (env : Env) (s : Store) (h : s.quoteRows = [])
    (hok : allAccepted (setupDatabase env s).2) :
    (setupDatabase env s).1.quoteValues = seedValues ∧
    (setupDatabase env s).1.quoteRows ≠ [] ∧
    (setupDatabase env s).1.favorites ≠ none ∧
    (setupDatabase env s).1.favoriteRows = s.favoriteRows := by
  have hzero : Nat.repr 0 = "0" := by decide
  have hfind : ∀ l : List Quote, List.find? (fun _ => false) l = none := by
    intro l
    induction l with
    | nil => rfl
    | cons a l ih => simp [List.find?]
  have hvals : ∀ first : Int, (mkQuoteRows env.now first seedQuotes).map
      (fun q => (q.text, q.author, q.category)) = seedValues :=
    fun first => mkQuoteRows_values env.now seedQuotes first
  have hne : ∀ first : Int, mkQuoteRows env.now first seedQuotes ≠ [] := by
    intro first h0
    have := congrArg List.length (hvals first)
    rw [h0] at this
    simp [seedValues, seedQuotes] at this
  cases h0 : env.fail 0 with
  | some e =>
    have hlog : (setupDatabase env s).2 = [⟨.createQuotes, some e⟩] := by
      simp [setupDatabase, poolQuery, h0]
    rw [hlog] at hok
    have := hok ⟨.createQuotes, some e⟩ (by simp)
    simp at this
  | none =>
    cases h1 : env.fail 1 with
    | some e =>
      have hlog : ⟨.createFavorites, some e⟩ ∈ (setupDatabase env s).2 := by
        cases hq : s.quotes <;> simp [setupDatabase, poolQuery, createQuotes, h0, h1, hq]
      have := hok _ hlog
      simp at this
    | none =>
      cases h2 : env.fail 2 with
      | some e =>
        have hlog : ⟨.countQuotes, some e⟩ ∈ (setupDatabase env s).2 := by
          cases hq : s.quotes <;> cases hf : s.favorites <;>
            simp [setupDatabase, poolQuery, createQuotes, createFavorites, h0, h1, h2, hq, hf]
        have := hok _ hlog
        simp at this
      | none =>
        cases h3 : env.fail 3 with
        | some e =>
          have hlog : ⟨.insertSeedQuotes, some e⟩ ∈ (setupDatabase env s).2 := by
            cases hq : s.quotes with
            | none =>
              cases hf : s.favorites <;>
                simp [setupDatabase, poolQuery, createQuotes, createFavorites, countQuotes, h0,
                  h1, h2, h3, hq, hf, hzero]
            | some t =>
              have ht : t.rows = [] := by simpa [Store.quoteRows, hq] using h
              cases hf : s.favorites <;>
                simp [setupDatabase, poolQuery, createQuotes, createFavorites, countQuotes, h0,
                  h1, h2, h3, hq, hf, ht, hzero]
          have := hok _ hlog
          simp at this
        | none =>
          cases hq : s.quotes with
          | none =>
            cases hf : s.favorites <;>
              simp [setupDatabase, poolQuery, createQuotes, createFavorites, countQuotes,
                insertSeedQuotes, h0, h1, h2, h3, hq, hf, hzero, Store.quoteValues,
                Store.quoteRows, Store.favoriteRows, hvals, hne, hfind]
          | some t =>
            have ht : t.rows = [] := by simpa [Store.quoteRows, hq] using h
            cases hf : s.favorites <;>
              simp [setupDatabase, poolQuery, createQuotes, createFavorites, countQuotes,
                insertSeedQuotes, h0, h1, h2, h3, hq, hf, ht, hzero, Store.quoteValues,
                Store.quoteRows, Store.favoriteRows, hvals, hne, hfind]

theorem quoteRows_of_quotes (s1 s : Store) (h : s1.quotes = s.quotes) :
    s1.quoteRows = s.quoteRows := by
  simp [Store.quoteRows, h]

theorem setupDatabase_twice (env1 env2 : Env) (s : Store)
    (hok : allAccepted (setupDatabase env1 s).2) :
    (setupDatabase env2 (setupDatabase env1 s).1).1 = (setupDatabase env1 s).1 := by
  by_cases h : s.quoteRows = []
  · obtain ⟨-, h2, h3, -⟩ := setupDatabase_of_empty env1 s h hok
    exact (setupDatabase_of_rows env2 _ h2).2.2.1 h3
  · obtain ⟨h1, -, -, h4⟩ := setupDatabase_of_rows env1 s h
    have hrows : (setupDatabase env1 s).1.quoteRows ≠ [] := by
      rw [quoteRows_of_quotes _ _ h1]
      exact h
    exact (setupDatabase_of_rows env2 _ hrows).2.2.1 (h4 hok)

theorem seedValues_length : seedValues.length = 15 := by
  decide

/-- C8: run without a store failure on a store whose `quotes` table is empty or
absent, `setupDatabase` leaves exactly the fifteen seed quotes; run on a store
that holds a quote it leaves `quotes` and the favorite rows as they were; hence
a second run after a first one changes nothing, and from the empty database
the quote count after one run and after two is 15. -/
theorem setupDatabase_idempotent :
    (∀ (env : Env) (s : Store), s.quoteRows = [] → allAccepted (setupDatabase env s).2 →
      (setupDatabase env s).1.quoteValues = seedValues ∧
      (setupDatabase env s).1.quoteRows.length = 15 ∧
      (setupDatabase env s).1.favoriteRows = s.favoriteRows) ∧
    (∀ (env : Env) (s : Store), s.quoteRows ≠ [] →
      (setupDatabase env s).1.quotes = s.quotes ∧
      (setupDatabase env s).1.quoteRows = s.quoteRows ∧
      (setupDatabase env s).1.favoriteRows = s.favoriteRows) ∧
    (∀ (env1 env2 : Env) (s : Store), allAccepted (setupDatabase env1 s).2 →
      (setupDatabase env2 (setupDatabase env1 s).1).1 = (setupDatabase env1 s).1) ∧
    (∀ (env1 env2 : Env), allAccepted (setupDatabase env1 emptyStore).2 →
      (setupDatabase env1 emptyStore).1.quoteRows.length = 15 ∧
      (setupDatabase env2 (setupDatabase env1 emptyStore).1).1.quoteRows.length = 15) := by
  have hlen : ∀ (env : Env) (s : Store), s.quoteRows = [] →
      allAccepted (setupDatabase env s).2 → (setupDatabase env s).1.quoteRows.length = 15 := by
    intro env s h hok
    have := congrArg List.length (setupDatabase_of_empty env s h hok).1
    rw [seedValues_length] at this
    simpa [Store.quoteValues] using this
  refine ⟨?_, ?_, setupDatabase_twice, ?_⟩
  · intro env s h hok
    obtain ⟨h1, -, -, h4⟩ := setupDatabase_of_empty env s h hok
    exact ⟨h1, hlen env s h hok, h4⟩
  · intro env s h
    obtain ⟨h1, h2, -, -⟩ := setupDatabase_of_rows env s h
    exact ⟨h1, quoteRows_of_quotes _ _ h1, h2⟩
  · intro env1 env2 hok
    have h15 := hlen env1 emptyStore rfl hok
    rw [setupDatabase_twice env1 env2 emptyStore hok]
    exact ⟨h15, h15⟩

/-- C8 from the empty database: two runs leave what one run leaves, fifteen
quotes. -/
theorem setupDatabase_idempotent_witness :
    allAccepted (setupDatabase (calm 0 0) emptyStore).2 ∧
    (setupDatabase (calm 9 0) (setupDatabase (calm 0 0) emptyStore).1).1
      = (setupDatabase (calm 0 0) emptyStore).1 ∧
    (setupDatabase (calm 0 0) emptyStore).1.quoteRows.length = 15 :=
  ⟨by decide, setupDatabase_idempotent.2.2.1 (calm 0 0) (calm 9 0) emptyStore (by decide),
    (setupDatabase_idempotent.2.2.2 (calm 0 0) (calm 9 0) (by decide)).1⟩

/-! ## Store failures -/

theorem poolQuery_ok_entry {α : Type} (env : Env) (k : Nat) (sql : Sql)
    (run : Store → Except DbError α × Store) (s s1 : Store) (a : α) (i : Issued)
    (h : poolQuery env k sql run s = (.ok a, s1, i)) :
    i = ⟨sql, none⟩ ∧ run s = (.ok a, s1) := by
  rcases poolQuery_cases env k sql run s with ⟨a1, s2, -, hr, hq⟩ | ⟨e, s2, hq⟩
  · rw [hq] at h
    simp only [Prod.mk.injEq, Except.ok.injEq] at h
    obtain ⟨h1, h2, h3⟩ := h
    subst h1
    subst h2
    exact ⟨h3.symm, hr⟩
  · rw [hq] at h
    simp at h

theorem poolQuery_error_entry {α : Type} (env : Env) (k : Nat) (sql : Sql)
    (run : Store → Except DbError α × Store) (s s1 : Store) (e : DbError) (i : Issued)
    (h : poolQuery env k sql run s = (.error e, s1, i)) :
    i = ⟨sql, some e⟩ ∧ (s1 = s ∨ run s = (.error e, s1)) := by
  cases hf : env.fail k with
  | some e1 =>
    rw [poolQuery_of_fail _ _ _ _ _ e1 hf] at h
    simp only [Prod.mk.injEq, Except.error.injEq] at h
    obtain ⟨h1, h2, h3⟩ := h
    subst h1
    exact ⟨h3.symm, Or.inl h2.symm⟩
  | none =>
    rcases hr : run s with ⟨r, s2⟩
    cases r with
    | ok a =>
      rw [poolQuery_of_ok _ _ _ _ _ _ _ hf hr] at h
      simp at h
    | error e1 =>
      rw [poolQuery_of_error _ _ _ _ _ _ _ hf hr] at h
      simp only [Prod.mk.injEq, Except.error.injEq] at h
      obtain ⟨h1, h2, h3⟩ := h
      subst h1
      subst h2
      exact ⟨h3.symm, Or.inr rfl⟩

theorem rejected_singleton (sql : Sql) : ¬ someRejected [⟨sql, none⟩] := by
  simp [someRejected]

theorem selectRandomQuote_store (rand : Nat) (s : Store) : (selectRandomQuote rand s).2 = s := by
  unfold selectRandomQuote
  split <;> rfl

theorem selectAllQuotes_store (s : Store) : (selectAllQuotes s).2 = s := by
  unfold selectAllQuotes
  split <;> rfl

theorem selectQuoteByCategory_store (rand : Nat) (c : String) (s : Store) :
    (selectQuoteByCategory rand c s).2 = s := by
  unfold selectQuoteByCategory
  split <;> rfl

theorem poolQuery_store {α : Type} (env : Env) (k : Nat) (sql : Sql)
    (run : Store → Except DbError α × Store) (s s1 : Store) (r : Except DbError α) (i : Issued)
    (hro : (run s).2 = s) (h : poolQuery env k sql run s = (r, s1, i)) : s1 = s := by
  cases r with
  | ok a =>
    have := (poolQuery_ok_entry env k sql run s s1 a i h).2
    rw [this] at hro
    exact hro
  | error e =>
    rcases (poolQuery_error_entry env k sql run s s1 e i h).2 with h1 | h1
    · exact h1
    · rw [h1] at hro
      exact hro

/-- The ways `GET /api/quotes/random` can end. -/
theorem getRandomQuote_cases (env : Env) (s : Store) :
    (getRandomQuote env s).store = s ∧
    ((getRandomQuote env s).issued = [⟨.selectRandomQuote, none⟩] ∨
      (∃ e, (getRandomQuote env s).issued = [⟨.selectRandomQuote, some e⟩] ∧
        (getRandomQuote env s).response = ⟨500, .error "Failed to fetch quote"⟩)) := by
  unfold getRandomQuote
  split
  · rename_i s1 i h
    have hs := poolQuery_store _ _ _ _ _ _ _ _ (selectRandomQuote_store _ _) h
    exact ⟨hs, Or.inl (by rw [(poolQuery_ok_entry _ _ _ _ _ _ _ _ h).1])⟩
  · rename_i s1 i h
    have hs := poolQuery_store _ _ _ _ _ _ _ _ (selectRandomQuote_store _ _) h
    exact ⟨hs, Or.inl (by rw [(poolQuery_ok_entry _ _ _ _ _ _ _ _ h).1])⟩
  · rename_i e s1 i h
    have hs := poolQuery_store _ _ _ _ _ _ _ _ (selectRandomQuote_store _ _) h
    exact ⟨hs, Or.inr ⟨e, by rw [(poolQuery_error_entry _ _ _ _ _ _ _ _ h).1], rfl⟩⟩

/-- The ways `GET /api/quotes` can end. -/
theorem getQuotes_cases (env : Env) (s : Store) :
    (getQuotes env s).store = s ∧
    (((getQuotes env s).issued = [⟨.selectAllQuotes, none⟩] ∧
        (getQuotes env s).response
          = ⟨200, .quotes (s.quoteRows.insertionSort (fun a b => a.id ≤ b.id))⟩) ∨
      (∃ e, (getQuotes env s).issued = [⟨.selectAllQuotes, some e⟩] ∧
        (getQuotes env s).response = ⟨500, .error "Failed to fetch quotes"⟩)) := by
  unfold getQuotes
  split
  · rename_i rows s1 i h
    have hs := poolQuery_store _ _ _ _ _ _ _ _ (selectAllQuotes_store _) h
    obtain ⟨h1, h2⟩ := poolQuery_ok_entry _ _ _ _ _ _ _ _ h
    refine ⟨hs, Or.inl ⟨by rw [h1], ?_⟩⟩
    unfold selectAllQuotes at h2
    split at h2
    · simp at h2
    · rename_i t ht
      simp only [Prod.mk.injEq, Except.ok.injEq] at h2
      simp [Store.quoteRows, ht, h2.1]
  · rename_i e s1 i h
    have hs := poolQuery_store _ _ _ _ _ _ _ _ (selectAllQuotes_store _) h
    exact ⟨hs, Or.inr ⟨e, by rw [(poolQuery_error_entry _ _ _ _ _ _ _ _ h).1], rfl⟩⟩

/-- The ways `GET /api/quotes/category/:category` can end. -/
theorem getQuoteByCategory_cases (env : Env) (s : Store) (c : String) :
    (getQuoteByCategory env s c).store = s ∧
    ((getQuoteByCategory env s c).issued = [⟨.selectQuoteByCategory, none⟩] ∨
      (∃ e, (getQuoteByCategory env s c).issued = [⟨.selectQuoteByCategory, some e⟩] ∧
        (getQuoteByCategory env s c).response = ⟨500, .error "Failed to fetch quote"⟩)) := by
  unfold getQuoteByCategory
  split
  · rename_i s1 i h
    have hs := poolQuery_store _ _ _ _ _ _ _ _ (selectQuoteByCategory_store _ _ _) h
    exact ⟨hs, Or.inl (by rw [(poolQuery_ok_entry _ _ _ _ _ _ _ _ h).1])⟩
  · rename_i s1 i h
    have hs := poolQuery_store _ _ _ _ _ _ _ _ (selectQuoteByCategory_store _ _ _) h
    exact ⟨hs, Or.inl (by rw [(poolQuery_ok_entry _ _ _ _ _ _ _ _ h).1])⟩
  · rename_i e s1 i h
    have hs := poolQuery_store _ _ _ _ _ _ _ _ (selectQuoteByCategory_store _ _ _) h
    exact ⟨hs, Or.inr ⟨e, by rw [(poolQuery_error_entry _ _ _ _ _ _ _ _ h).1], rfl⟩⟩

theorem insertQuote_error (now : Nat) (text author category : JsVal) (s s1 : Store)
    (e : DbError) (h : insertQuote now text author category s = (.error e, s1)) :
    s1.favorites = s.favorites ∧ s1.quoteRows = s.quoteRows := by
  unfold insertQuote at h
  split at h
  · simp only [Prod.mk.injEq] at h
    rw [← h.2]
    exact ⟨rfl, rfl⟩
  · rename_i t ht
    split at h
    · simp only [Prod.mk.injEq] at h
      rw [← h.2]
      exact ⟨rfl, rfl⟩
    · simp only [Prod.mk.injEq] at h
      rw [← h.2]
      exact ⟨rfl, rfl⟩
    · simp only at h
      split at h
      · simp only [Prod.mk.injEq] at h
        rw [← h.2]
        exact ⟨rfl, by simp [Store.quoteRows, ht]⟩
      · simp only [Prod.mk.injEq] at h
        rw [← h.2]
        exact ⟨rfl, by simp [Store.quoteRows, ht]⟩
      · split at h
        · simp only [Prod.mk.injEq] at h
          rw [← h.2]
          exact ⟨rfl, by simp [Store.quoteRows, ht]⟩
        · simp at h

/-- The three ways `POST /api/quotes` can end. -/
theorem postQuote_cases (env : Env) (s : Store) (body : ReqBody) :
    (((body.field "text").truthy = false ∨ (body.field "author").truthy = false) ∧
      postQuote env s body = ⟨⟨400, .error "Quote text and author are required"⟩, s, []⟩) ∨
    (∃ row s1, s1.favorites = s.favorites ∧ s1.quoteRows = s.quoteRows ++ [row] ∧
      postQuote env s body
        = ⟨⟨201, .created "Quote added successfully!" row⟩, s1, [⟨.insertQuote, none⟩]⟩) ∨
    (∃ e s1, s1.favorites = s.favorites ∧ s1.quoteRows = s.quoteRows ∧
      postQuote env s body
        = ⟨⟨500, .error "Failed to add quote"⟩, s1, [⟨.insertQuote, some e⟩]⟩) := by
  by_cases ht : (body.field "text").truthy = true
  · by_cases ha : (body.field "author").truthy = true
    · have hdef := postQuote_of_truthy env s body ht ha
      cases hf : env.fail 0 with
      | some e =>
        rw [poolQuery_of_fail _ _ _ _ _ e hf] at hdef
        exact Or.inr (Or.inr ⟨e, s, rfl, rfl, hdef⟩)
      | none =>
        rcases hr : insertQuote env.now (body.field "text") (body.field "author")
          ((body.field "category").orElse (.str "general")) s with ⟨r, s1⟩
        cases r with
        | ok row =>
          rw [poolQuery_of_ok _ _ _ _ _ _ _ hf hr] at hdef
          obtain ⟨t, a, c, hst, -, -, -, -, hs1⟩ := insertQuote_ok _ _ _ _ _ _ _ hr
          refine Or.inr (Or.inl ⟨row, s1, ?_, ?_, hdef⟩)
          · rw [hs1]
          · rw [hs1]
            simp [Store.quoteRows, hst]
        | error e =>
          rw [poolQuery_of_error _ _ _ _ _ _ _ hf hr] at hdef
          obtain ⟨h1, h2⟩ := insertQuote_error _ _ _ _ _ _ _ hr
          exact Or.inr (Or.inr ⟨e, s1, h1, h2, hdef⟩)
    · exact Or.inl ⟨Or.inr (by simpa using ha),
        postQuote_of_falsy env s body (Or.inr (by simpa using ha))⟩
  · exact Or.inl ⟨Or.inl (by simpa using ht),
      postQuote_of_falsy env s body (Or.inl (by simpa using ht))⟩

theorem getRandomQuote_failed (env : Env) (s : Store)
    (h : someRejected (getRandomQuote env s).issued) :
    (getRandomQuote env s).response = ⟨500, .error "Failed to fetch quote"⟩ := by
  rcases (getRandomQuote_cases env s).2 with h1 | ⟨e, -, h2⟩
  · rw [h1] at h
    exact absurd h (rejected_singleton _)
  · exact h2

theorem getQuotes_failed (env : Env) (s : Store) (h : someRejected (getQuotes env s).issued) :
    (getQuotes env s).response = ⟨500, .error "Failed to fetch quotes"⟩ := by
  rcases (getQuotes_cases env s).2 with ⟨h1, -⟩ | ⟨e, -, h2⟩
  · rw [h1] at h
    exact absurd h (rejected_singleton _)
  · exact h2

theorem getQuoteByCategory_failed (env : Env) (s : Store) (c : String)
    (h : someRejected (getQuoteByCategory env s c).issued) :
    (getQuoteByCategory env s c).response = ⟨500, .error "Failed to fetch quote"⟩ := by
  rcases (getQuoteByCategory_cases env s c).2 with h1 | ⟨e, -, h2⟩
  · rw [h1] at h
    exact absurd h (rejected_singleton _)
  · exact h2

theorem postQuote_failed (env : Env) (s : Store) (body : ReqBody)
    (h : someRejected (postQuote env s body).issued) :
    (postQuote env s body).response = ⟨500, .error "Failed to add quote"⟩ := by
  rcases postQuote_cases env s body with ⟨-, hp⟩ | ⟨row, s1, -, -, hp⟩ | ⟨e, s1, -, -, hp⟩
  · rw [hp] at h
    simp [someRejected] at h
  · rw [hp] at h
    exact absurd h (rejected_singleton _)
  · rw [hp]

theorem postFavorite_failed (env : Env) (s : Store) (body : ReqBody)
    (h : someRejected (postFavorite env s body).issued) :
    (postFavorite env s body).response = ⟨500, .error "Failed to favorite quote"⟩ := by
  rcases postFavorite_cases env s body with
    ⟨-, hp⟩ | ⟨-, -, row, s1, -, hp⟩ | ⟨-, -, e, s1, -, -, hp⟩
  · rw [hp] at h
    simp [someRejected] at h
  · rw [hp] at h
    exact absurd h (rejected_singleton _)
  · rw [hp]

theorem getFavoriteCount_failed (env : Env) (s : Store) (quoteId : String)
    (h : someRejected (getFavoriteCount env s quoteId).issued) :
    (getFavoriteCount env s quoteId).response
      = ⟨500, .error "Failed to fetch favorite count"⟩ := by
  rcases getFavoriteCount_cases env s quoteId with ⟨x, -, hp⟩ | ⟨e, hp⟩
  · rw [hp] at h
    exact absurd h (rejected_singleton _)
  · rw [hp]

theorem getStats_failed (env : Env) (s : Store) (h : someRejected (getStats env s).issued) :
    (getStats env s).response = ⟨500, .error "Failed to fetch statistics"⟩ := by
  rcases getStats_cases env s with hp | ⟨log, -, hp⟩
  · rw [hp] at h
    simp [someRejected] at h
  · rw [hp]

theorem getStats_any_read_fails (env : Env) (s : Store) (k : Nat) (e : DbError) (hk : k < 3)
    (he : env.fail k = some e) :
    (getStats env s).response = ⟨500, .error "Failed to fetch statistics"⟩ ∧
    someRejected (getStats env s).issued := by
  interval_cases k <;> cases h0 : env.fail 0 <;> cases hq : s.quotes <;>
    cases h1 : env.fail 1 <;> cases hf : s.favorites <;> cases h2 : env.fail 2 <;>
    simp_all [getStats, poolQuery, countQuotes, countFavorites, selectDistinctCategories,
      someRejected]

/-- C9: in each of the seven store-backed handlers, as soon as a statement the
handler issues is rejected by the store the handler answers 500 with the fixed
error body of its route, whatever the error; for `GET /api/stats` this holds
when any one of its three reads fails. Two runs of the same route that both
meet a store failure therefore send the same response. -/
theorem store_failure_is_500 :
    (∀ (env : Env) (s : Store), someRejected (getRandomQuote env s).issued →
      (getRandomQuote env s).response = ⟨500, .error "Failed to fetch quote"⟩) ∧
    (∀ (env : Env) (s : Store), someRejected (getQuotes env s).issued →
      (getQuotes env s).response = ⟨500, .error "Failed to fetch quotes"⟩) ∧
    (∀ (env : Env) (s : Store) (c : String), someRejected (getQuoteByCategory env s c).issued →
      (getQuoteByCategory env s c).response = ⟨500, .error "Failed to fetch quote"⟩) ∧
    (∀ (env : Env) (s : Store) (body : ReqBody), someRejected (postQuote env s body).issued →
      (postQuote env s body).response = ⟨500, .error "Failed to add quote"⟩) ∧
    (∀ (env : Env) (s : Store) (body : ReqBody), someRejected (postFavorite env s body).issued →
      (postFavorite env s body).response = ⟨500, .error "Failed to favorite quote"⟩) ∧
    (∀ (env : Env) (s : Store) (quoteId : String),
      someRejected (getFavoriteCount env s quoteId).issued →
      (getFavoriteCount env s quoteId).response
        = ⟨500, .error "Failed to fetch favorite count"⟩) ∧
    (∀ (env : Env) (s : Store), someRejected (getStats env s).issued →
      (getStats env s).response = ⟨500, .error "Failed to fetch statistics"⟩) ∧
    (∀ (env : Env) (s : Store) (k : Nat) (e : DbError), k < 3 → env.fail k = some e →
      (getStats env s).response = ⟨500, .error "Failed to fetch statistics"⟩) ∧
    (∀ (env1 env2 : Env) (s1 s2 : Store) (req : Request),
      someRejected (handle env1 s1 req).issued → someRejected (handle env2 s2 req).issued →
      (handle env1 s1 req).response = (handle env2 s2 req).response) := by
  refine ⟨getRandomQuote_failed, getQuotes_failed, getQuoteByCategory_failed, postQuote_failed,
    postFavorite_failed, getFavoriteCount_failed, getStats_failed,
    fun env s k e hk he => (getStats_any_read_fails env s k e hk he).1, ?_⟩
  intro env1 env2 s1 s2 req h1 h2
  cases req with
  | health => simp [handle, getHealth, someRejected] at h1
  | randomQuote =>
    simp only [handle] at h1 h2 ⊢
    rw [getRandomQuote_failed _ _ h1, getRandomQuote_failed _ _ h2]
  | listQuotes =>
    simp only [handle] at h1 h2 ⊢
    rw [getQuotes_failed _ _ h1, getQuotes_failed _ _ h2]
  | quoteByCategory c =>
    simp only [handle] at h1 h2 ⊢
    rw [getQuoteByCategory_failed _ _ _ h1, getQuoteByCategory_failed _ _ _ h2]
  | submitQuote body =>
    simp only [handle] at h1 h2 ⊢
    rw [postQuote_failed _ _ _ h1, postQuote_failed _ _ _ h2]
  | submitFavorite body =>
    simp only [handle] at h1 h2 ⊢
    rw [postFavorite_failed _ _ _ h1, postFavorite_failed _ _ _ h2]
  | favoriteCount q =>
    simp only [handle] at h1 h2 ⊢
    rw [getFavoriteCount_failed _ _ _ h1, getFavoriteCount_failed _ _ _ h2]
  | stats =>
    simp only [handle] at h1 h2 ⊢
    rw [getStats_failed _ _ h1, getStats_failed _ _ h2]

/-- C9 on the seeded store: a refused connection and a failure of the third
read of `GET /api/stats` are answered with the same 500 response. -/
theorem store_failure_is_500_witness :
    (handle (broken (.external "connection refused")) seededStore .stats).response
      = (handle ⟨fun k => if k = 2 then some (.external "timeout") else none, 0, 0, ""⟩
          seededStore .stats).response ∧
    (handle (broken (.external "connection refused")) seededStore .stats).response
      = ⟨500, .error "Failed to fetch statistics"⟩ :=
  ⟨store_failure_is_500.2.2.2.2.2.2.2.2 _ _ seededStore seededStore .stats
      (by decide) (by decide),
    by decide⟩

/-! ## Quotes are never updated or deleted -/

theorem postFavorite_quotes (env : Env) (s : Store) (body : ReqBody) :
    (postFavorite env s body).store.quotes = s.quotes := by
  rcases postFavorite_cases env s body with
    ⟨-, hp⟩ | ⟨-, -, row, s1, hr, hp⟩ | ⟨-, -, e, s1, h1, -, hp⟩
  · rw [hp]
  · rw [hp]
    exact (insertFavorite_ok _ _ _ _ _ _ hr).2.2.1
  · rw [hp]
    exact h1

theorem postQuote_rows (env : Env) (s : Store) (body : ReqBody) :
    (postQuote env s body).store.favorites = s.favorites ∧
    ((postQuote env s body).store.quoteRows = s.quoteRows ∨
      ∃ row, (postQuote env s body).store.quoteRows = s.quoteRows ++ [row]) := by
  rcases postQuote_cases env s body with ⟨-, hp⟩ | ⟨row, s1, h1, h2, hp⟩ | ⟨e, s1, h1, h2, hp⟩
  · rw [hp]
    exact ⟨rfl, Or.inl rfl⟩
  · rw [hp]
    exact ⟨h1, Or.inr ⟨row, h2⟩⟩
  · rw [hp]
    exact ⟨h1, Or.inl h2⟩

theorem postQuote_row_stored (env : Env) (s : Store) (body : ReqBody) (m : String) (row : Quote)
    (h : (postQuote env s body).response = ⟨201, .created m row⟩) :
    row ∈ (postQuote env s body).store.quoteRows := by
  rcases postQuote_cases env s body with ⟨-, hp⟩ | ⟨r, s1, -, h2, hp⟩ | ⟨e, s1, -, -, hp⟩
  · rw [hp] at h
    simp at h
  · rw [hp] at h
    simp only [Response.mk.injEq, ResBody.created.injEq, true_and] at h
    rw [hp]
    simp only
    rw [h2, ← h.2]
    simp
  · rw [hp] at h
    simp at h

theorem handle_quotes (env : Env) (s : Store) (req : Request)
    (h : ∀ body, req ≠ .submitQuote body) : (handle env s req).store.quotes = s.quotes := by
  cases req with
  | health => rfl
  | randomQuote => simp only [handle, (getRandomQuote_cases env s).1]
  | listQuotes => simp only [handle, (getQuotes_cases env s).1]
  | quoteByCategory c => simp only [handle, (getQuoteByCategory_cases env s c).1]
  | submitQuote body => exact absurd rfl (h body)
  | submitFavorite body => exact postFavorite_quotes env s body
  | favoriteCount q =>
    simp only [handle]
    rcases getFavoriteCount_cases env s q with ⟨x, -, hp⟩ | ⟨e, hp⟩ <;> rw [hp]
  | stats =>
    simp only [handle]
    rcases getStats_cases env s with hp | ⟨log, -, hp⟩ <;> rw [hp]

theorem handle_keeps (env : Env) (s : Store) (req : Request) :
    ∀ q ∈ s.quoteRows, q ∈ (handle env s req).store.quoteRows := by
  intro q hq
  by_cases h : ∀ body, req ≠ .submitQuote body
  · rw [quoteRows_of_quotes _ _ (handle_quotes env s req h)]
    exact hq
  · simp only [not_forall, not_not] at h
    obtain ⟨body, rfl⟩ := h
    simp only [handle]
    rcases (postQuote_rows env s body).2 with h1 | ⟨row, h1⟩
    · rw [h1]
      exact hq
    · rw [h1]
      exact List.mem_append_left _ hq

theorem setupDatabase_keeps (env : Env) (s : Store) :
    ∀ q ∈ s.quoteRows, q ∈ (setupDatabase env s).1.quoteRows := by
  intro q hq
  have hne : s.quoteRows ≠ [] := List.ne_nil_of_mem hq
  rw [quoteRows_of_quotes _ _ (setupDatabase_of_rows env s hne).1]
  exact hq

theorem runOps_keeps (ops : List (Env × Op)) :
    ∀ (s : Store), ∀ q ∈ s.quoteRows, q ∈ (runOps ops s).quoteRows := by
  induction ops with
  | nil => intro s q hq; exact hq
  | cons x rest ih =>
    intro s q hq
    obtain ⟨env, op⟩ := x
    simp only [runOps]
    apply ih
    cases op with
    | request r => exact handle_keeps env s r q hq
    | setup => exact setupDatabase_keeps env s q hq

/-- C10: no operation updates or deletes a quote. Every quote row present
before a request, or before a run of `setupDatabase`, is present unchanged
after it; every route but `POST /api/quotes` leaves the `quotes` table exactly
as it was, and `POST /api/quotes` adds at most one row; so the row returned by
a successful submission is in the answer of every later successful `GET
/api/quotes`, whatever operations came in between. -/
theorem quotes_never_lost :
    (∀ (env : Env) (s : Store) (req : Request),
      ∀ q ∈ s.quoteRows, q ∈ (handle env s req).store.quoteRows) ∧
    (∀ (env : Env) (s : Store), ∀ q ∈ s.quoteRows, q ∈ (setupDatabase env s).1.quoteRows) ∧
    (∀ (env : Env) (s : Store) (req : Request), (∀ body, req ≠ .submitQuote body) →
      (handle env s req).store.quotes = s.quotes) ∧
    (∀ (env : Env) (s : Store) (body : ReqBody),
      (handle env s (.submitQuote body)).store.quoteRows = s.quoteRows ∨
      ∃ row, (handle env s (.submitQuote body)).store.quoteRows = s.quoteRows ++ [row]) ∧
    (∀ (env : Env) (s : Store) (body : ReqBody) (m : String) (row : Quote),
      (handle env s (.submitQuote body)).response = ⟨201, .created m row⟩ →
      ∀ (ops : List (Env × Op)) (env2 : Env) (rows : List Quote),
        (handle env2 (runOps ops (handle env s (.submitQuote body)).store) .listQuotes).response
          = ⟨200, .quotes rows⟩ →
        row ∈ rows) := by
  refine ⟨handle_keeps, setupDatabase_keeps, handle_quotes,
    fun env s body => (postQuote_rows env s body).2, ?_⟩
  intro env s body m row h ops env2 rows hlist
  have hstored : row ∈ (runOps ops (handle env s (.submitQuote body)).store).quoteRows :=
    runOps_keeps ops _ row (postQuote_row_stored env s body m row h)
  simp only [handle] at hlist
  rcases (getQuotes_cases env2 (runOps ops (handle env s (.submitQuote body)).store)).2 with
    ⟨-, h2⟩ | ⟨e, -, h2⟩
  · simp only [handle] at h2
    rw [h2] at hlist
    simp only [Response.mk.injEq, ResBody.quotes.injEq, true_and] at hlist
    rw [← hlist]
    exact (List.perm_insertionSort _ _).mem_iff.2 hstored
  · simp only [handle] at h2
    rw [h2] at hlist
    simp at hlist

/-- C10 on the seeded store: the quote submitted by Bob is still listed after a
favorite, a second run of `setupDatabase` and another submission. -/
theorem quotes_never_lost_witness :
    (⟨16, "Test", "Bob", some "general", 1⟩ : Quote) ∈
      (handle (calm 9 0)
        (runOps [(calm 2 0, .request (.submitFavorite [("quote_id", .num 16),
              ("user_name", .str "Ann")])),
            (calm 3 0, .setup),
            (calm 4 0, .request (.submitQuote [("text", .str "More"), ("author", .str "Ann")]))]
          (handle (calm 1 0) seededStore
            (.submitQuote [("text", .str "Test"), ("author", .str "Bob")])).store)
        .listQuotes).response.body.listed :=
  quotes_never_lost.2.2.2.2 (calm 1 0) seededStore
    [("text", .str "Test"), ("author", .str "Bob")] "Quote added successfully!"
    ⟨16, "Test", "Bob", some "general", 1⟩ (by decide)
    [(calm 2 0, .request (.submitFavorite [("quote_id", .num 16), ("user_name", .str "Ann")])),
      (calm 3 0, .setup),
      (calm 4 0, .request (.submitQuote [("text", .str "More"), ("author", .str "Ann")]))]
    (calm 9 0) _ (by decide)

/-! ## Referential integrity is an invariant -/

theorem poolQuery_favoriteRows {α : Type} (env : Env) (k : Nat) (sql : Sql)
    (run : Store → Except DbError α × Store) (s s1 : Store) (r : Except DbError α) (i : Issued)
    (hrun : (run s).2.favoriteRows = s.favoriteRows)
    (h : poolQuery env k sql run s = (r, s1, i)) : s1.favoriteRows = s.favoriteRows := by
  cases r with
  | ok a =>
    have := (poolQuery_ok_entry env k sql run s s1 a i h).2
    rw [this] at hrun
    exact hrun
  | error e =>
    rcases (poolQuery_error_entry env k sql run s s1 e i h).2 with h1 | h1
    · rw [h1]
    · rw [h1] at hrun
      exact hrun

theorem createQuotes_favoriteRows (s : Store) :
    (createQuotes s).2.favoriteRows = s.favoriteRows := by
  unfold createQuotes
  split <;> rfl

theorem createFavorites_favoriteRows (s : Store) :
    (createFavorites s).2.favoriteRows = s.favoriteRows := by
  unfold createFavorites
  split
  · rfl
  · rename_i hf
    split
    · rfl
    · simp [Store.favoriteRows, hf]

theorem countQuotes_favoriteRows (s : Store) :
    (countQuotes s).2.favoriteRows = s.favoriteRows := by
  unfold countQuotes
  split <;> rfl

theorem insertSeedQuotes_favoriteRows (now : Nat) (s : Store) :
    (insertSeedQuotes now s).2.favoriteRows = s.favoriteRows := by
  unfold insertSeedQuotes
  split
  · rfl
  · simp only
    split <;> rfl

theorem setupDatabase_favoriteRows (env : Env) (s : Store) :
    (setupDatabase env s).1.favoriteRows = s.favoriteRows := by
  unfold setupDatabase
  split
  · rename_i h
    exact poolQuery_favoriteRows _ _ _ _ _ _ _ _ (createQuotes_favoriteRows s) h
  · rename_i u1 s1 i1 h
    have e1 := poolQuery_favoriteRows _ _ _ _ _ _ _ _ (createQuotes_favoriteRows s) h
    split
    · rename_i h
      rw [← e1]
      exact poolQuery_favoriteRows _ _ _ _ _ _ _ _ (createFavorites_favoriteRows s1) h
    · rename_i u2 s2 i2 h
      have e2 := poolQuery_favoriteRows _ _ _ _ _ _ _ _ (createFavorites_favoriteRows s1) h
      split
      · rename_i h
        rw [← e1, ← e2]
        exact poolQuery_favoriteRows _ _ _ _ _ _ _ _ (countQuotes_favoriteRows s2) h
      · rename_i count s3 i3 h
        have e3 := poolQuery_favoriteRows _ _ _ _ _ _ _ _ (countQuotes_favoriteRows s2) h
        split
        · split
          rename_i h
          rw [← e1, ← e2, ← e3]
          exact poolQuery_favoriteRows _ _ _ _ _ _ _ _ (insertSeedQuotes_favoriteRows _ s3) h
        · rw [e3, e2, e1]

theorem handle_favoriteRows (env : Env) (s : Store) (req : Request) :
    (handle env s req).store.favoriteRows = s.favoriteRows ∨
    ∃ row, (handle env s req).store.favoriteRows = s.favoriteRows ++ [row] ∧
      ∀ n, row.quote_id = some n → ∃ q ∈ s.quoteRows, q.id = n := by
  cases req with
  | health => exact Or.inl rfl
  | randomQuote => exact Or.inl (by simp only [handle, (getRandomQuote_cases env s).1])
  | listQuotes => exact Or.inl (by simp only [handle, (getQuotes_cases env s).1])
  | quoteByCategory c =>
    exact Or.inl (by simp only [handle, (getQuoteByCategory_cases env s c).1])
  | submitQuote body =>
    refine Or.inl ?_
    simp only [handle, Store.favoriteRows, (postQuote_rows env s body).1]
  | submitFavorite body =>
    simp only [handle]
    rcases postFavorite_cases env s body with
      ⟨-, hp⟩ | ⟨-, -, row, s1, hr, hp⟩ | ⟨-, -, e, s1, -, h2, hp⟩
    · rw [hp]
      exact Or.inl rfl
    · rw [hp]
      obtain ⟨-, hfk, -, hrows⟩ := insertFavorite_ok _ _ _ _ _ _ hr
      exact Or.inr ⟨row, hrows, hfk⟩
    · rw [hp]
      exact Or.inl h2
  | favoriteCount q =>
    simp only [handle]
    rcases getFavoriteCount_cases env s q with ⟨x, -, hp⟩ | ⟨e, hp⟩ <;> rw [hp] <;>
      exact Or.inl rfl
  | stats =>
    simp only [handle]
    rcases getStats_cases env s with hp | ⟨log, -, hp⟩ <;> rw [hp] <;> exact Or.inl rfl

/-- The foreign key of `favorites` holds in the empty database and is kept by
every request and by every run of `setupDatabase`. -/
theorem referencesHold_invariant :
    emptyStore.referencesHold ∧
    ∀ (ops : List (Env × Op)) (s : Store), s.referencesHold → (runOps ops s).referencesHold := by
  constructor
  · intro f hf
    simp [emptyStore, Store.favoriteRows] at hf
  · intro ops
    induction ops with
    | nil => intro s hs; exact hs
    | cons x rest ih =>
      intro s hs
      obtain ⟨env, op⟩ := x
      simp only [runOps]
      apply ih
      cases op with
      | request r =>
        intro f hf n hn
        simp only [step] at hf ⊢
        rcases handle_favoriteRows env s r with h1 | ⟨row, h1, h2⟩
        · rw [h1] at hf
          obtain ⟨q, hq, hid⟩ := hs f hf n hn
          exact ⟨q, handle_keeps env s r q hq, hid⟩
        · rw [h1] at hf
          rcases List.mem_append.1 hf with hf | hf
          · obtain ⟨q, hq, hid⟩ := hs f hf n hn
            exact ⟨q, handle_keeps env s r q hq, hid⟩
          · simp only [List.mem_singleton] at hf
            subst hf
            obtain ⟨q, hq, hid⟩ := h2 n hn
            exact ⟨q, handle_keeps env s r q hq, hid⟩
      | setup =>
        intro f hf n hn
        simp only [step] at hf ⊢
        rw [setupDatabase_favoriteRows] at hf
        obtain ⟨q, hq, hid⟩ := hs f hf n hn
        exact ⟨q, setupDatabase_keeps env s q hq, hid⟩

end CloudQuotes
